import Mathlib

/-!
Shallow embedding of the Base-BNPL Solidity contracts (LendingPool,
PaymentController, RiskEngine, CollateralManager, SharedTypes) and proofs
about the properties stated in the specification.

Modelling conventions:
* `uint256` is modelled as `Nat`.  Solidity 0.8 checked arithmetic reverts on
  underflow; every state-variable subtraction in the source is therefore
  modelled through `checkedSub`, which fails exactly when the source would
  revert.  Checked addition of realistic token amounts cannot reach `2^256`,
  so additions are modelled as plain `Nat` addition.
* `address` is modelled as `Nat`, with `0` playing the role of `address(0)`.
  The deployed contract addresses (`address(this)` inside each contract) are
  the fixed distinct constants `POOL_ADDR` and `CONTROLLER_ADDR`.
* The USDC token is modelled as a balance map `Usdc := Addr → Nat`;
  `safeTransfer` / `safeTransferFrom` fail exactly on insufficient balance
  (allowances are assumed granted, as the protocol requires of its users).
* `block.timestamp` is passed to every state-changing entry point as an
  explicit `now : Nat`.  The difference `now - lastUpdateTime` uses
  truncating `Nat` subtraction: the chain clock is monotone and every stored
  timestamp is a past `block.timestamp`, so the truncation never triggers.
* Reverts of an operation are modelled by `Except.error` carrying the source
  revert string; a reverted operation leaves no state change (the caller
  keeps the old state), matching EVM transaction semantics.
* Access control (`onlyRole`) and `whenNotPaused` guards select *who* may
  call an entry point; the operations are modelled as invoked by the
  authorized caller on an unpaused contract, which is the situation all the
  specification claims quantify over.
-/

namespace BNPL

/-- Addresses are naturals; `0` is Solidity's `address(0)`. -/
abbrev Addr := Nat

/-- USDC balance map (the settlement-asset ERC20). -/
abbrev Usdc := Addr → Nat

/-- Address of the deployed `LendingPool` contract (`address(this)` there). -/
def POOL_ADDR : Addr := 11

/-- Address of the deployed `PaymentController` contract. -/
def CONTROLLER_ADDR : Addr := 12

/-- ERC20 transfer of `amt` from `src` to `dst`: fails on insufficient
balance, otherwise debits `src` and credits `dst`. -/
def erc20Transfer (u : Usdc) (src dst amt : Addr) : Except String Usdc :=
  if amt ≤ u src then
    let u1 := Function.update u src (u src - amt)
    .ok (Function.update u1 dst (u1 dst + amt))
  else
    .error "ERC20: transfer amount exceeds balance"

/-- Solidity 0.8 checked subtraction: reverts (errors) on underflow. -/
def checkedSub (x y : Nat) : Except String Nat :=
  if y ≤ x then .ok (x - y) else .error "panic: arithmetic underflow"

/-- `SharedTypes.RiskTier` (the `LendingPool` contract declares the
`LOW`/`MEDIUM`/`HIGH` subset; `DENIED` is never passed to pool entry
points). -/
inductive RiskTier
  | LOW
  | MEDIUM
  | HIGH
  | DENIED
deriving DecidableEq, Repr

/-- `SharedTypes.LoanStatus`. -/
inductive LoanStatus
  | PENDING
  | APPROVED
  | ACTIVE
  | COMPLETED
  | DEFAULTED
  | LIQUIDATED
deriving DecidableEq, Repr

/-- `SharedTypes.PaymentStatus`. -/
inductive PaymentStatus
  | PENDING
  | PAID
  | LATE
  | MISSED
deriving DecidableEq, Repr

end BNPL

namespace BNPL.LendingPool

/-- `LendingPool.LenderPosition`. -/
structure LenderPosition where
  deposited : Nat
  yieldEarned : Nat
  lastUpdateTime : Nat
  riskTier : RiskTier
  autoReinvest : Bool
deriving DecidableEq, Repr

/-- Solidity zero-initialized `LenderPosition` (mapping default). -/
def LenderPosition.zero : LenderPosition :=
  { deposited := 0, yieldEarned := 0, lastUpdateTime := 0
    riskTier := RiskTier.LOW, autoReinvest := false }

/-- `LendingPool.PoolStats`. -/
structure PoolStats where
  totalLiquidity : Nat
  totalLoaned : Nat
  totalYieldPaid : Nat
  totalDefaulted : Nat
  utilizationRate : Nat
  averageAPY : Nat
  totalLenders : Nat
  totalBorrowers : Nat
deriving DecidableEq, Repr

def RESERVE_RATIO : Nat := 200

def MAX_UTILIZATION : Nat := 9000

def BASIS_POINTS : Nat := 10000

def SECONDS_PER_YEAR : Nat := 365 * 86400

/-- Mutable state of the `LendingPool` contract. -/
structure State where
  poolStats : PoolStats
  lenderPositions : Addr → LenderPosition
  tierAPY : RiskTier → Nat
  tierLiquidity : RiskTier → Nat
  reserveFund : Nat
  /-- source: `_totalSupply` -/
  totalSupply : Nat

/-- State as established by the constructor (all mappings zero, tier APYs
initialized). -/
def initState : State :=
  { poolStats :=
      { totalLiquidity := 0, totalLoaned := 0, totalYieldPaid := 0
        totalDefaulted := 0, utilizationRate := 0, averageAPY := 0
        totalLenders := 0, totalBorrowers := 0 }
    lenderPositions := fun _ => LenderPosition.zero
    tierAPY := fun t =>
      match t with
      | RiskTier.LOW => 400
      | RiskTier.MEDIUM => 800
      | RiskTier.HIGH => 1500
      | RiskTier.DENIED => 0
    tierLiquidity := fun _ => 0
    reserveFund := 0
    totalSupply := 0 }

/-- source: `_calculateYield`. -/
def calculateYield (principal apy timeElapsed : Nat) : Nat :=
  principal * apy * timeElapsed / (BASIS_POINTS * SECONDS_PER_YEAR)

/-- source: `_updateLenderYield`. -/
def updateLenderYield (s : State) (lender now : Nat) : State :=
  let position := s.lenderPositions lender
  let position :=
    if 0 < position.deposited ∧ 0 < position.lastUpdateTime then
      { position with
          yieldEarned := position.yieldEarned +
            calculateYield position.deposited (s.tierAPY position.riskTier)
              (now - position.lastUpdateTime) }
    else position
  { s with lenderPositions :=
      (Function.update s.lenderPositions lender
        { position with lastUpdateTime := now }) }

/-- source: `_getAvailableLiquidity`. -/
def getAvailableLiquidity (s : State) : Nat :=
  let maxLoaned := s.poolStats.totalLiquidity * MAX_UTILIZATION / BASIS_POINTS
  if maxLoaned ≤ s.poolStats.totalLoaned then 0
  else maxLoaned - s.poolStats.totalLoaned

/-- source: `_distributeYield` — the body is an acknowledged stub ("this is a
simplified version"): it returns early when the tier has no liquidity and
otherwise performs no state change, so the function is the identity on the
pool state. -/
def distributeYield (s : State) (_totalYield : Nat) (_riskTier : RiskTier) :
    State :=
  s

/-- source: `_distributeLoss` — likewise an acknowledged stub: it returns
early when `_totalSupply == 0` and otherwise performs no state change. -/
def distributeLoss (s : State) (_lossAmount : Nat) : State :=
  s

/-- source: `deposit(uint256 amount, RiskTier riskTier)`, with
`msg.sender = sender` and `block.timestamp = now`. -/
def deposit (s : State) (u : Usdc) (sender now amount : Nat)
    (riskTier : RiskTier) : Except String (State × Usdc) :=
  if amount = 0 then .error "LendingPool: Amount must be greater than 0"
  else
    let s := updateLenderYield s sender now
    match erc20Transfer u sender POOL_ADDR amount with
    | .error e => .error e
    | .ok u =>
      let position := s.lenderPositions sender
      let s :=
        if position.deposited = 0 then
          { s with poolStats :=
              { s.poolStats with totalLenders := s.poolStats.totalLenders + 1 } }
        else s
      let position :=
        { position with deposited := position.deposited + amount
                        riskTier := riskTier, lastUpdateTime := now }
      let s := { s with lenderPositions :=
                   (Function.update s.lenderPositions sender position) }
      let s := { s with poolStats :=
                   { s.poolStats with
                       totalLiquidity := s.poolStats.totalLiquidity + amount } }
      let s := { s with tierLiquidity :=
                   (Function.update s.tierLiquidity riskTier
                     (s.tierLiquidity riskTier + amount)) }
      let s := { s with totalSupply := s.totalSupply + amount }
      let reserveAmount := amount * RESERVE_RATIO / BASIS_POINTS
      .ok ({ s with reserveFund := s.reserveFund + reserveAmount }, u)

/-- source: `withdraw(uint256 amount)`. -/
def withdraw (s : State) (u : Usdc) (sender now amount : Nat) :
    Except String (State × Usdc) :=
  if (s.lenderPositions sender).deposited < amount then
    .error "LendingPool: Insufficient balance"
  else
    let s := updateLenderYield s sender now
    if getAvailableLiquidity s < amount then
      .error "LendingPool: Insufficient pool liquidity"
    else
      let position := s.lenderPositions sender
      let position := { position with deposited := position.deposited - amount }
      let s := { s with lenderPositions :=
                   (Function.update s.lenderPositions sender position) }
      match checkedSub (s.tierLiquidity position.riskTier) amount with
      | .error e => .error e
      | .ok tl =>
        let s := { s with tierLiquidity :=
                     (Function.update s.tierLiquidity position.riskTier tl) }
        let s :=
          if position.deposited = 0 then
            { s with poolStats :=
                { s.poolStats with
                    totalLenders := s.poolStats.totalLenders - 1 } }
          else s
        match checkedSub s.poolStats.totalLiquidity amount with
        | .error e => .error e
        | .ok liq =>
          let s := { s with poolStats :=
                       { s.poolStats with totalLiquidity := liq } }
          match checkedSub s.totalSupply amount with
          | .error e => .error e
          | .ok ts =>
            let s := { s with totalSupply := ts }
            match erc20Transfer u POOL_ADDR sender amount with
            | .error e => .error e
            | .ok u => .ok (s, u)

/-- source: `claimYield()`. -/
def claimYield (s : State) (u : Usdc) (sender now : Nat) :
    Except String (State × Usdc) :=
  let s := updateLenderYield s sender now
  let position := s.lenderPositions sender
  let yieldAmount := position.yieldEarned
  if yieldAmount = 0 then .error "LendingPool: No yield to claim"
  else
    let s := { s with lenderPositions :=
                 (Function.update s.lenderPositions sender
                   { position with yieldEarned := 0 }) }
    let s := { s with poolStats :=
                 { s.poolStats with
                     totalYieldPaid := s.poolStats.totalYieldPaid + yieldAmount } }
    match erc20Transfer u POOL_ADDR sender yieldAmount with
    | .error e => .error e
    | .ok u => .ok (s, u)

/-- source: `fundLoan(uint256 loanId, address borrower, uint256 amount,
RiskTier riskTier)` (caller: PaymentController). -/
def fundLoan (s : State) (u : Usdc) (_loanId : Nat) (borrower : Addr)
    (amount : Nat) (_riskTier : RiskTier) : Except String (State × Usdc) :=
  if amount = 0 then .error "LendingPool: Invalid amount"
  else if borrower = 0 then .error "LendingPool: Invalid borrower"
  else if getAvailableLiquidity s < amount then
    .error "LendingPool: Insufficient liquidity"
  else
    let s := { s with poolStats :=
                 { s.poolStats with
                     totalLoaned := s.poolStats.totalLoaned + amount
                     totalBorrowers := s.poolStats.totalBorrowers + 1 } }
    match erc20Transfer u POOL_ADDR borrower amount with
    | .error e => .error e
    | .ok u => .ok (s, u)

/-- source: `repayLoan(uint256 loanId, uint256 amount, RiskTier riskTier)`
(caller: PaymentController, so `msg.sender = caller`). -/
def repayLoan (s : State) (u : Usdc) (caller : Addr) (_loanId : Nat)
    (amount : Nat) (riskTier : RiskTier) : Except String (State × Usdc) :=
  if amount = 0 then .error "LendingPool: Invalid amount"
  else
    match erc20Transfer u caller POOL_ADDR amount with
    | .error e => .error e
    | .ok u =>
      match checkedSub s.poolStats.totalLoaned amount with
      | .error e => .error e
      | .ok tl =>
        let s := { s with poolStats :=
                     { s.poolStats with
                         totalLoaned := tl
                         totalLiquidity := s.poolStats.totalLiquidity + amount } }
        let s := distributeYield s amount riskTier
        .ok (s, u)

/-- source: `handleDefault(uint256 loanId, uint256 lossAmount,
uint256 recoveredAmount)`. -/
def handleDefault (s : State) (u : Usdc) (_loanId lossAmount recoveredAmount : Nat) :
    Except String (State × Usdc) :=
  if lossAmount = 0 then .error "LendingPool: Invalid loss amount"
  else
    let s :=
      if lossAmount ≤ s.reserveFund then
        { s with reserveFund := s.reserveFund - lossAmount }
      else
        let s := distributeLoss s (lossAmount - s.reserveFund)
        { s with reserveFund := 0 }
    let s :=
      if 0 < recoveredAmount then
        { s with poolStats :=
            { s.poolStats with
                totalLiquidity := s.poolStats.totalLiquidity + recoveredAmount } }
      else s
    let s := { s with poolStats :=
                 { s.poolStats with
                     totalDefaulted := s.poolStats.totalDefaulted + lossAmount } }
    match checkedSub s.poolStats.totalLoaned lossAmount with
    | .error e => .error e
    | .ok tl =>
      .ok ({ s with poolStats := { s.poolStats with totalLoaned := tl } }, u)

/-- Sum of `LenderPosition.deposited` over a finite set of lender
addresses (used to state the conservation claim). -/
def sumDeposits (s : State) (A : Finset Addr) : Nat :=
  A.sum fun a => (s.lenderPositions a).deposited

end BNPL.LendingPool

namespace BNPL.RiskEngine

/-- `RiskEngine.CreditProfile`. -/
structure CreditProfile where
  creditScore : Nat
  totalBorrowed : Nat
  totalRepaid : Nat
  successfulPayments : Nat
  missedPayments : Nat
  currentDebt : Nat
  walletAge : Nat
  lastAssessment : Nat
  hasDefaulted : Bool
  currentTier : RiskTier
deriving DecidableEq, Repr

/-- Solidity zero-initialized `CreditProfile` (mapping default): note the
stored `creditScore` of a fresh borrower is `0`, not `300`. -/
def CreditProfile.zero : CreditProfile :=
  { creditScore := 0, totalBorrowed := 0, totalRepaid := 0
    successfulPayments := 0, missedPayments := 0, currentDebt := 0
    walletAge := 0, lastAssessment := 0, hasDefaulted := false
    currentTier := RiskTier.LOW }

/-- `RiskEngine.RiskParameters`. -/
structure RiskParameters where
  baseScore : Nat
  maxOnchainBonus : Nat
  maxCollateralBonus : Nat
  maxWalletAgeBonus : Nat
  missedPaymentPenalty : Nat
  defaultPenalty : Nat
  minCollateralRatio : Nat
  liquidationThreshold : Nat
deriving DecidableEq, Repr

def SCORE_SCALE : Nat := 850

def MIN_SCORE : Nat := 300

/-- Mutable state of the `RiskEngine` contract. -/
structure State where
  creditProfiles : Addr → CreditProfile
  riskParams : RiskParameters
  tierMinScores : RiskTier → Nat
  tierMaxAmounts : RiskTier → Nat

/-- State as established by the constructor. -/
def initState : State :=
  { creditProfiles := fun _ => CreditProfile.zero
    riskParams :=
      { baseScore := 500, maxOnchainBonus := 200, maxCollateralBonus := 175
        maxWalletAgeBonus := 125, missedPaymentPenalty := 50
        defaultPenalty := 200, minCollateralRatio := 11000
        liquidationThreshold := 11000 }
    tierMinScores := fun t =>
      match t with
      | RiskTier.LOW => 750
      | RiskTier.MEDIUM => 600
      | RiskTier.HIGH => 300
      | RiskTier.DENIED => 0
    tierMaxAmounts := fun t =>
      match t with
      | RiskTier.LOW => 10000 * 1000000
      | RiskTier.MEDIUM => 5000 * 1000000
      | RiskTier.HIGH => 2000 * 1000000
      | RiskTier.DENIED => 0 }

/-- source: `_getRiskTier`. -/
def getRiskTier (s : State) (creditScore : Nat) : RiskTier :=
  if s.tierMinScores RiskTier.LOW ≤ creditScore then RiskTier.LOW
  else if s.tierMinScores RiskTier.MEDIUM ≤ creditScore then RiskTier.MEDIUM
  else if s.tierMinScores RiskTier.HIGH ≤ creditScore then RiskTier.HIGH
  else RiskTier.DENIED

/-- source: `_getWalletAge` (heuristic from the address digits). -/
def getWalletAge (user : Addr) : Nat :=
  let age := user % 10000 / 10
  if age = 0 then 1 else age

/-- source: `_updateCreditScore(address user, uint256 points, bool isBonus)`.
A bonus adds `points` and clamps only from above at `SCORE_SCALE`; a penalty
subtracts and floors at `MIN_SCORE`. -/
def updateCreditScore (s : State) (user points : Nat) (isBonus : Bool) :
    State :=
  let profile := s.creditProfiles user
  let profile :=
    if isBonus then
      let newScore := profile.creditScore + points
      { profile with creditScore :=
          if SCORE_SCALE < newScore then SCORE_SCALE else newScore }
    else
      if points < profile.creditScore then
        { profile with creditScore := profile.creditScore - points }
      else
        { profile with creditScore := MIN_SCORE }
  let profile := { profile with currentTier := getRiskTier s profile.creditScore }
  { s with creditProfiles := (Function.update s.creditProfiles user profile) }

/-- source: `recordPayment(address borrower, uint256 amount, bool onTime)`. -/
def recordPayment (s : State) (borrower amount : Nat) (onTime : Bool)
    (now : Nat) : Except String State :=
  if borrower = 0 then .error "RiskEngine: Invalid borrower address"
  else if amount = 0 then .error "RiskEngine: Invalid payment amount"
  else
    let p := s.creditProfiles borrower
    let p := { p with totalRepaid := p.totalRepaid + amount }
    let p :=
      if onTime then { p with successfulPayments := p.successfulPayments + 1 }
      else { p with missedPayments := p.missedPayments + 1 }
    let s := { s with creditProfiles := (Function.update s.creditProfiles borrower p) }
    let s :=
      if onTime then updateCreditScore s borrower 5 true
      else updateCreditScore s borrower s.riskParams.missedPaymentPenalty false
    let p := s.creditProfiles borrower
    .ok { s with creditProfiles :=
            (Function.update s.creditProfiles borrower
              { p with lastAssessment := now }) }

/-- source: `recordLoan(address borrower, uint256 amount)`. -/
def recordLoan (s : State) (borrower amount now : Nat) : Except String State :=
  if borrower = 0 then .error "RiskEngine: Invalid borrower address"
  else if amount = 0 then .error "RiskEngine: Invalid loan amount"
  else
    let p := s.creditProfiles borrower
    let p := { p with totalBorrowed := p.totalBorrowed + amount
                      currentDebt := p.currentDebt + amount
                      lastAssessment := now }
    let p := if p.walletAge = 0 then { p with walletAge := getWalletAge borrower } else p
    .ok { s with creditProfiles := (Function.update s.creditProfiles borrower p) }

/-- source: `recordLoanCompletion(address borrower, uint256 amount)`. -/
def recordLoanCompletion (s : State) (borrower amount now : Nat) :
    Except String State :=
  if borrower = 0 then .error "RiskEngine: Invalid borrower address"
  else
    let p := s.creditProfiles borrower
    let p :=
      if amount ≤ p.currentDebt then { p with currentDebt := p.currentDebt - amount }
      else { p with currentDebt := 0 }
    let s := { s with creditProfiles := (Function.update s.creditProfiles borrower p) }
    let s := updateCreditScore s borrower 25 true
    let p := s.creditProfiles borrower
    .ok { s with creditProfiles :=
            (Function.update s.creditProfiles borrower
              { p with lastAssessment := now }) }

/-- source: `recordDefault(address borrower, uint256 amount)`. -/
def recordDefault (s : State) (borrower amount now : Nat) :
    Except String State :=
  if borrower = 0 then .error "RiskEngine: Invalid borrower address"
  else if amount = 0 then .error "RiskEngine: Invalid default amount"
  else
    let p := s.creditProfiles borrower
    let p := { p with hasDefaulted := true, currentDebt := 0 }
    let s := { s with creditProfiles := (Function.update s.creditProfiles borrower p) }
    let s := updateCreditScore s borrower s.riskParams.defaultPenalty false
    let p := s.creditProfiles borrower
    .ok { s with creditProfiles :=
            (Function.update s.creditProfiles borrower
              { p with lastAssessment := now }) }

end BNPL.RiskEngine

namespace BNPL.CollateralManager

/-- Balance maps of the collateral ERC20 tokens: `token → holder → balance`. -/
abbrev TokenBal := Nat → Nat → Nat

/-- Address of the deployed `CollateralManager` contract. -/
def COLLATERAL_ADDR : Addr := 13

/-- `CollateralManager.CollateralPosition`. -/
structure CollateralPosition where
  owner : Addr
  token : Addr
  amount : Nat
  lockedAt : Nat
  loanId : Nat
  isLocked : Bool
deriving DecidableEq, Repr

/-- Solidity zero-initialized `CollateralPosition`. -/
def CollateralPosition.zero : CollateralPosition :=
  { owner := 0, token := 0, amount := 0, lockedAt := 0, loanId := 0
    isLocked := false }

/-- `CollateralManager.TokenConfig`. -/
structure TokenConfig where
  isSupported : Bool
  liquidationThreshold : Nat
  liquidationBonus : Nat
  maxLoanToValue : Nat
  priceFeed : Addr
deriving DecidableEq, Repr

def BASIS_POINTS : Nat := 10000

/-- Mutable state of the `CollateralManager` contract, together with the
`decimals()` metadata of each collateral ERC20 (an external read). -/
structure State where
  collateralPositions : Nat → CollateralPosition
  tokenConfigs : Addr → TokenConfig
  tokenPrices : Addr → Nat
  liquidationDelay : Nat
  decimals : Addr → Nat

/-- source: `getTokenPrice` (public view): fails on unsupported token or an
unset (zero) price. -/
def getTokenPrice (s : State) (token : Addr) : Except String Nat :=
  if (s.tokenConfigs token).isSupported = false then
    .error "CollateralManager: Token not supported"
  else if s.tokenPrices token = 0 then
    .error "CollateralManager: Price not available"
  else .ok (s.tokenPrices token)

/-- source: `getCollateralValue(address token, uint256 amount)`. -/
def getCollateralValue (s : State) (token : Addr) (amount : Nat) :
    Except String Nat :=
  if (s.tokenConfigs token).isSupported = false then
    .error "CollateralManager: Token not supported"
  else
    match getTokenPrice s token with
    | .error e => .error e
    | .ok tokenPrice => .ok (amount * tokenPrice / 10 ^ s.decimals token)

/-- source: `releaseCollateral(uint256 loanId, address owner, address token,
uint256 amount)` (caller: PaymentController). -/
def releaseCollateral (s : State) (tb : TokenBal)
    (loanId : Nat) (owner token amount : Nat) :
    Except String (State × TokenBal) :=
  let position := s.collateralPositions loanId
  if position.isLocked = false then
    .error "CollateralManager: No collateral locked"
  else if position.owner ≠ owner then .error "CollateralManager: Invalid owner"
  else if position.token ≠ token then .error "CollateralManager: Invalid token"
  else if position.amount < amount then
    .error "CollateralManager: Insufficient collateral"
  else
    let position := { position with amount := position.amount - amount }
    let position :=
      if position.amount = 0 then { position with isLocked := false }
      else position
    let s := { s with collateralPositions :=
                 (Function.update s.collateralPositions loanId position) }
    match erc20Transfer (tb token) COLLATERAL_ADDR owner amount with
    | .error e => .error e
    | .ok bal => .ok (s, Function.update tb token bal)

/-- source: `liquidateCollateral(uint256 loanId, address token, uint256
amount)` (caller: PaymentController).  Returns the new state and
`recoveredAmount`.  No token transfer occurs in the source body (a comment
notes a DEX integration would go there). -/
def liquidateCollateral (s : State) (loanId : Nat) (token amount now : Nat) :
    Except String (State × Nat) :=
  let position := s.collateralPositions loanId
  if position.isLocked = false then
    .error "CollateralManager: No collateral locked"
  else if position.token ≠ token then .error "CollateralManager: Invalid token"
  else if position.amount < amount then
    .error "CollateralManager: Insufficient collateral"
  else if now < position.lockedAt + s.liquidationDelay then
    .error "CollateralManager: Liquidation delay not met"
  else
    match getTokenPrice s token with
    | .error e => .error e
    | .ok tokenPrice =>
      let collateralValue := amount * tokenPrice / 10 ^ s.decimals token
      let config := s.tokenConfigs token
      let liquidationBonus := collateralValue * config.liquidationBonus / BASIS_POINTS
      let recoveredAmount := collateralValue + liquidationBonus
      let position := { position with amount := position.amount - amount }
      let position :=
        if position.amount = 0 then { position with isLocked := false }
        else position
      let s := { s with collateralPositions :=
                   (Function.update s.collateralPositions loanId position) }
      .ok (s, recoveredAmount)

end BNPL.CollateralManager

namespace BNPL.PaymentController

/-- `PaymentController.PaymentTerms`. -/
structure PaymentTerms where
  installments : Nat
  intervalDays : Nat
  interestRate : Nat
  lateFeeRate : Nat
deriving DecidableEq, Repr

/-- `PaymentController.Loan`. -/
structure Loan where
  id : Nat
  borrower : Addr
  merchant : Addr
  principal : Nat
  totalAmount : Nat
  collateralAmount : Nat
  collateralToken : Addr
  terms : PaymentTerms
  status : LoanStatus
  createdAt : Nat
  nextPaymentDue : Nat
  paidAmount : Nat
  remainingAmount : Nat
  riskTier : RiskTier
deriving DecidableEq, Repr

/-- Solidity zero-initialized `Loan` (mapping default). -/
def Loan.zero : Loan :=
  { id := 0, borrower := 0, merchant := 0, principal := 0, totalAmount := 0
    collateralAmount := 0, collateralToken := 0
    terms := { installments := 0, intervalDays := 0, interestRate := 0, lateFeeRate := 0 }
    status := LoanStatus.PENDING, createdAt := 0, nextPaymentDue := 0
    paidAmount := 0, remainingAmount := 0, riskTier := RiskTier.LOW }

/-- `PaymentController.Payment`. -/
structure Payment where
  id : Nat
  loanId : Nat
  amount : Nat
  dueDate : Nat
  paidDate : Nat
  status : PaymentStatus
  lateFee : Nat
deriving DecidableEq, Repr

/-- Solidity zero-initialized `Payment` (mapping default). -/
def Payment.zero : Payment :=
  { id := 0, loanId := 0, amount := 0, dueDate := 0, paidDate := 0
    status := PaymentStatus.PENDING, lateFee := 0 }

/-- `PaymentController.Merchant`. -/
structure Merchant where
  name : String
  wallet : Addr
  totalVolume : Nat
  totalOrders : Nat
  isActive : Bool
  settlementDelay : Nat
deriving DecidableEq, Repr

def LATE_PAYMENT_GRACE_PERIOD : Nat := 2 * 86400

def DEFAULT_THRESHOLD_DAYS : Nat := 30 * 86400

def BASIS_POINTS : Nat := 10000

def SECONDS_PER_DAY : Nat := 86400

/-- Mutable state of the `PaymentController` contract. -/
structure State where
  nextLoanId : Nat
  nextPaymentId : Nat
  loans : Nat → Loan
  payments : Nat → Payment
  loanPayments : Nat → List Nat
  merchants : Addr → Merchant

/-- source: `_calculateTotalAmount(uint256 principal, uint256 interestRate)`. -/
def calculateTotalAmount (principal interestRate : Nat) : Nat :=
  principal + principal * interestRate / BASIS_POINTS

/-- source: `_calculateLateFee(uint256 paymentAmount, uint256 lateFeeRate)`. -/
def calculateLateFee (paymentAmount lateFeeRate : Nat) : Nat :=
  paymentAmount * lateFeeRate / BASIS_POINTS

/-- One iteration of the `_createPaymentSchedule` loop, at loop index `i`:
allocates `nextPaymentId`, stores the `Payment` and appends its id to
`loanPayments[loanId]`. -/
def scheduleStep (s : State) (loanId i : Nat) : State :=
  let loan := s.loans loanId
  let paymentAmount := loan.totalAmount / loan.terms.installments
  let lastPaymentAmount :=
    loan.totalAmount - paymentAmount * (loan.terms.installments - 1)
  let paymentId := s.nextPaymentId
  let amount := if i = loan.terms.installments - 1 then lastPaymentAmount
                else paymentAmount
  let dueDate := loan.createdAt + (i + 1) * loan.terms.intervalDays * SECONDS_PER_DAY
  let payment : Payment :=
    { id := paymentId, loanId := loanId, amount := amount, dueDate := dueDate
      paidDate := 0, status := PaymentStatus.PENDING, lateFee := 0 }
  { s with nextPaymentId := s.nextPaymentId + 1
           payments := (Function.update s.payments paymentId payment)
           loanPayments := (Function.update s.loanPayments loanId
             (s.loanPayments loanId ++ [paymentId])) }

/-- The `_createPaymentSchedule` loop from index `i`, running `r` more
iterations. -/
def scheduleFrom (s : State) (loanId i : Nat) : Nat → State
  | 0 => s
  | r + 1 => scheduleFrom (scheduleStep s loanId i) loanId (i + 1) r

/-- source: `_createPaymentSchedule(uint256 loanId)`: the loop
`for i in 0 .. installments-1`. -/
def createPaymentSchedule (s : State) (loanId : Nat) : State :=
  scheduleFrom s loanId 0 (s.loans loanId).terms.installments

/-- Scan of `_updateNextPaymentDue`: due date of the first `PENDING` payment
in the list, `0` when there is none. -/
def firstPendingDueDate (payments : Nat → Payment) : List Nat → Nat
  | [] => 0
  | pid :: rest =>
    if (payments pid).status = PaymentStatus.PENDING then (payments pid).dueDate
    else firstPendingDueDate payments rest

/-- source: `_updateNextPaymentDue(uint256 loanId)`. -/
def updateNextPaymentDue (s : State) (loanId : Nat) : State :=
  { s with loans := (Function.update s.loans loanId
      { s.loans loanId with
          nextPaymentDue := firstPendingDueDate s.payments (s.loanPayments loanId) }) }

end BNPL.PaymentController

namespace BNPL

/-- Combined state of the four deployed contracts plus the ERC20 balance
maps: the world a PaymentController entry point executes against. -/
structure World where
  pool : LendingPool.State
  ctrl : PaymentController.State
  risk : RiskEngine.State
  coll : CollateralManager.State
  usdc : Usdc
  tokenBal : CollateralManager.TokenBal

end BNPL

namespace BNPL.World

open BNPL.PaymentController

/-- source: `PaymentController._settleMerchant(address merchant, uint256
amount)`: updates merchant stats and transfers `amount` USDC from the
controller to the merchant. -/
def settleMerchant (w : World) (merchant amount : Nat) :
    Except String World :=
  let m := w.ctrl.merchants merchant
  let m := { m with totalVolume := m.totalVolume + amount
                    totalOrders := m.totalOrders + 1 }
  let w := { w with ctrl := { w.ctrl with merchants :=
               (Function.update w.ctrl.merchants merchant m) } }
  match erc20Transfer w.usdc CONTROLLER_ADDR merchant amount with
  | .error e => .error e
  | .ok u => .ok { w with usdc := u }

/-- source: `PaymentController.fundLoan(uint256 loanId)`: funds an APPROVED
loan from the pool, activates it, generates the payment schedule and settles
the merchant. -/
def fundLoan (w : World) (loanId now : Nat) : Except String World :=
  let loan := w.ctrl.loans loanId
  if loan.status ≠ LoanStatus.APPROVED then
    .error "PaymentController: Loan not approved"
  else if loan.borrower = 0 then .error "PaymentController: Loan does not exist"
  else
    match LendingPool.fundLoan w.pool w.usdc loanId loan.borrower
        loan.principal loan.riskTier with
    | .error e => .error e
    | .ok (pool, u) =>
      let w := { w with pool := pool, usdc := u }
      let loan := { loan with
          status := LoanStatus.ACTIVE
          nextPaymentDue := now + loan.terms.intervalDays * SECONDS_PER_DAY }
      let w := { w with ctrl := { w.ctrl with loans :=
                   (Function.update w.ctrl.loans loanId loan) } }
      let w := { w with ctrl := createPaymentSchedule w.ctrl loanId }
      settleMerchant w loan.merchant loan.principal

/-- source: `PaymentController._completeLoan(uint256 loanId)`: marks the
loan COMPLETED, releases collateral and records the completion in the risk
engine. -/
def completeLoan (w : World) (loanId now : Nat) : Except String World :=
  let loan := w.ctrl.loans loanId
  let loan := { loan with status := LoanStatus.COMPLETED }
  let w := { w with ctrl := { w.ctrl with loans :=
               (Function.update w.ctrl.loans loanId loan) } }
  match CollateralManager.releaseCollateral w.coll w.tokenBal loanId
      loan.borrower loan.collateralToken loan.collateralAmount with
  | .error e => .error e
  | .ok (coll, tb) =>
    let w := { w with coll := coll, tokenBal := tb }
    match RiskEngine.recordLoanCompletion w.risk loan.borrower loan.totalAmount now with
    | .error e => .error e
    | .ok risk => .ok { w with risk := risk }

/-- source: `PaymentController.makePayment(uint256 paymentId)`, with
`msg.sender = sender` and `block.timestamp = now`. -/
def makePayment (w : World) (sender paymentId now : Nat) :
    Except String World :=
  let payment := w.ctrl.payments paymentId
  let loan := w.ctrl.loans payment.loanId
  if payment.status ≠ PaymentStatus.PENDING then
    .error "PaymentController: Payment already made"
  else if loan.borrower ≠ sender then .error "PaymentController: Not loan borrower"
  else if loan.status ≠ LoanStatus.ACTIVE then
    .error "PaymentController: Loan not active"
  else
    let isLate := payment.dueDate + LATE_PAYMENT_GRACE_PERIOD < now
    let lateFee :=
      if isLate then calculateLateFee payment.amount loan.terms.lateFeeRate
      else 0
    let totalPayment := payment.amount + lateFee
    let newStatus := if isLate then PaymentStatus.LATE else PaymentStatus.PAID
    match erc20Transfer w.usdc sender CONTROLLER_ADDR totalPayment with
    | .error e => .error e
    | .ok u =>
      let w := { w with usdc := u }
      let payment := { payment with paidDate := now, lateFee := lateFee
                                    status := newStatus }
      let w := { w with ctrl := { w.ctrl with payments :=
                   (Function.update w.ctrl.payments paymentId payment) } }
      match checkedSub loan.remainingAmount payment.amount with
      | .error e => .error e
      | .ok rem =>
        let loan := { loan with paidAmount := loan.paidAmount + totalPayment
                                remainingAmount := rem }
        let w := { w with ctrl := { w.ctrl with loans :=
                     (Function.update w.ctrl.loans payment.loanId loan) } }
        let w := { w with ctrl := updateNextPaymentDue w.ctrl payment.loanId }
        match erc20Transfer w.usdc CONTROLLER_ADDR POOL_ADDR payment.amount with
        | .error e => .error e
        | .ok u =>
          let w := { w with usdc := u }
          match (if 0 < lateFee then
                   erc20Transfer w.usdc CONTROLLER_ADDR POOL_ADDR lateFee
                 else .ok w.usdc) with
          | .error e => .error e
          | .ok u =>
            let w := { w with usdc := u }
            match LendingPool.repayLoan w.pool w.usdc CONTROLLER_ADDR
                payment.loanId payment.amount loan.riskTier with
            | .error e => .error e
            | .ok (pool, u) =>
              let w := { w with pool := pool, usdc := u }
              let onTime := payment.status = PaymentStatus.PAID
              match RiskEngine.recordPayment w.risk sender payment.amount
                  (decide onTime) now with
              | .error e => .error e
              | .ok risk =>
                let w := { w with risk := risk }
                if loan.remainingAmount = 0 then
                  completeLoan w payment.loanId now
                else .ok w

end BNPL.World

namespace BNPL.LendingPool

theorem updateLenderYield_poolStats (s : State) (l n : Nat) :
    (updateLenderYield s l n).poolStats = s.poolStats := rfl

theorem updateLenderYield_tierLiquidity (s : State) (l n : Nat) :
    (updateLenderYield s l n).tierLiquidity = s.tierLiquidity := rfl

theorem updateLenderYield_tierAPY (s : State) (l n : Nat) :
    (updateLenderYield s l n).tierAPY = s.tierAPY := rfl

theorem updateLenderYield_reserveFund (s : State) (l n : Nat) :
    (updateLenderYield s l n).reserveFund = s.reserveFund := rfl

theorem updateLenderYield_totalSupply (s : State) (l n : Nat) :
    (updateLenderYield s l n).totalSupply = s.totalSupply := rfl

theorem updateLenderYield_deposited (s : State) (l n a : Nat) :
    ((updateLenderYield s l n).lenderPositions a).deposited
      = (s.lenderPositions a).deposited := by
  unfold updateLenderYield
  rcases eq_or_ne a l with h | h
  · subst h
    simp only [Function.update_same]
    split <;> rfl
  · simp only [Function.update_noteq h]

theorem updateLenderYield_riskTier (s : State) (l n a : Nat) :
    ((updateLenderYield s l n).lenderPositions a).riskTier
      = (s.lenderPositions a).riskTier := by
  unfold updateLenderYield
  rcases eq_or_ne a l with h | h
  · subst h
    simp only [Function.update_same]
    split <;> rfl
  · simp only [Function.update_noteq h]

end BNPL.LendingPool

namespace BNPL

/-- C10: a successful `deposit(amount, tier)` credits the lender's recorded
`deposited` balance, `totalLiquidity` and the tier's liquidity each by the
full `amount`, and additionally adds `amount * 200 / 10000` to the reserve
fund (the 2% reserve allocation is not deducted from any of the three). -/
theorem C10_deposit_effects
    (s : LendingPool.State) (u : Usdc) (sender now amount : Nat)
    (tier : RiskTier) (s' : LendingPool.State) (u' : Usdc)
    (h : LendingPool.deposit s u sender now amount tier = .ok (s', u')) :
    (s'.lenderPositions sender).deposited
        = (s.lenderPositions sender).deposited + amount ∧
    s'.poolStats.totalLiquidity = s.poolStats.totalLiquidity + amount ∧
    s'.tierLiquidity tier = s.tierLiquidity tier + amount ∧
    s'.reserveFund = s.reserveFund + amount * 200 / 10000 := by
  unfold LendingPool.deposit at h
  split at h
  · cases h
  · cases htr : erc20Transfer u sender POOL_ADDR amount with
    | error e => rw [htr] at h; cases h
    | ok u2 =>
      rw [htr] at h
      dsimp only at h
      split at h <;>
      · injection h with h1
        injection h1 with hs hu
        subst hs
        refine ⟨?_, ?_, ?_, ?_⟩ <;>
          simp [Function.update_same, LendingPool.updateLenderYield_deposited,
                LendingPool.updateLenderYield_poolStats,
                LendingPool.updateLenderYield_tierLiquidity,
                LendingPool.updateLenderYield_reserveFund,
                LendingPool.RESERVE_RATIO, LendingPool.BASIS_POINTS]

end BNPL

namespace BNPL

/-- The code's available-liquidity computation agrees with the formula the
spec states: `min(totalLiquidity * 9000/10000, totalLiquidity) -
totalLoaned`, floored at 0 (floored automatically by `Nat` subtraction). -/
theorem getAvailableLiquidity_eq_spec (s : LendingPool.State) :
    LendingPool.getAvailableLiquidity s
      = min (s.poolStats.totalLiquidity * 9000 / 10000)
          s.poolStats.totalLiquidity - s.poolStats.totalLoaned := by
  unfold LendingPool.getAvailableLiquidity
  have hle : s.poolStats.totalLiquidity * 9000 / 10000
      ≤ s.poolStats.totalLiquidity := by
    calc s.poolStats.totalLiquidity * 9000 / 10000
        ≤ s.poolStats.totalLiquidity * 10000 / 10000 :=
          Nat.div_le_div_right (Nat.mul_le_mul_left _ (by norm_num))
      _ = s.poolStats.totalLiquidity := Nat.mul_div_cancel _ (by norm_num)
  rw [min_eq_left hle]
  simp only [LendingPool.MAX_UTILIZATION, LendingPool.BASIS_POINTS]
  split
  · omega
  · rfl

/-- C4: (1) after every successful pool `fundLoan`, `totalLoaned ≤
totalLiquidity * 9000 / 10000`; (2) `fundLoan` fails with the
insufficient-liquidity error whenever the requested amount exceeds
`min(totalLiquidity * 9000/10000, totalLiquidity) - totalLoaned` (floored at
0), for any well-formed (nonzero) borrower; (3) the code's available
liquidity equals that spec formula. -/
theorem C4_fundLoan_utilization_cap :
    (∀ (s : LendingPool.State) (u : Usdc) (loanId : Nat) (borrower : Addr)
       (amount : Nat) (tier : RiskTier) (s' : LendingPool.State) (u' : Usdc),
       LendingPool.fundLoan s u loanId borrower amount tier = .ok (s', u') →
       s'.poolStats.totalLoaned ≤ s'.poolStats.totalLiquidity * 9000 / 10000) ∧
    (∀ (s : LendingPool.State) (u : Usdc) (loanId : Nat) (borrower : Addr)
       (amount : Nat) (tier : RiskTier),
       borrower ≠ 0 →
       min (s.poolStats.totalLiquidity * 9000 / 10000)
           s.poolStats.totalLiquidity - s.poolStats.totalLoaned < amount →
       LendingPool.fundLoan s u loanId borrower amount tier
         = .error "LendingPool: Insufficient liquidity") ∧
    (∀ s : LendingPool.State,
       LendingPool.getAvailableLiquidity s
         = min (s.poolStats.totalLiquidity * 9000 / 10000)
             s.poolStats.totalLiquidity - s.poolStats.totalLoaned) := by
  refine ⟨?_, ?_, getAvailableLiquidity_eq_spec⟩
  · intro s u loanId borrower amount tier s' u' h
    unfold LendingPool.fundLoan at h
    split at h
    · cases h
    · split at h
      · cases h
      · split at h
        · cases h
        · rename_i hamt hbor hav
          cases htr : erc20Transfer u POOL_ADDR borrower amount with
          | error e => rw [htr] at h; dsimp only at h; cases h
          | ok u2 =>
            rw [htr] at h; dsimp only at h
            injection h with h1
            injection h1 with hs hu
            subst hs
            dsimp only
            rw [getAvailableLiquidity_eq_spec] at hav
            have hle : s.poolStats.totalLiquidity * 9000 / 10000
                ≤ s.poolStats.totalLiquidity := by
              calc s.poolStats.totalLiquidity * 9000 / 10000
                  ≤ s.poolStats.totalLiquidity * 10000 / 10000 :=
                    Nat.div_le_div_right (Nat.mul_le_mul_left _ (by norm_num))
                _ = s.poolStats.totalLiquidity := Nat.mul_div_cancel _ (by norm_num)
            rw [min_eq_left hle] at hav
            omega
  · intro s u loanId borrower amount tier hb hlt
    unfold LendingPool.fundLoan
    rw [if_neg (by omega : ¬ amount = 0), if_neg hb,
        if_pos (by rw [getAvailableLiquidity_eq_spec]; exact hlt)]

/-- Pool state used to instantiate C4's witness: 100 liquidity, nothing
loaned. -/
def c4S0 : LendingPool.State :=
  { LendingPool.initState with poolStats :=
      { LendingPool.initState.poolStats with totalLiquidity := 100 } }

/-- Pool-held USDC backing `c4S0`. -/
def c4U0 : Usdc := fun a => if a = POOL_ADDR then 100 else 0

/-- Pool state after the witness `fundLoan` of 50. -/
def c4S1 : LendingPool.State :=
  match LendingPool.fundLoan c4S0 c4U0 1 2 50 RiskTier.LOW with
  | .ok r => r.1
  | .error _ => c4S0

/-- USDC balances after the witness `fundLoan` of 50. -/
def c4U1 : Usdc :=
  match LendingPool.fundLoan c4S0 c4U0 1 2 50 RiskTier.LOW with
  | .ok r => r.2
  | .error _ => c4U0

/-- Witness for C4 on concrete inputs: a successful 50-unit `fundLoan` out of
100 liquidity keeps utilization under the cap, and a 200-unit request fails
with the insufficient-liquidity error. -/
theorem C4_fundLoan_utilization_cap_witness :
    LendingPool.fundLoan c4S0 c4U0 1 2 50 RiskTier.LOW = .ok (c4S1, c4U1) ∧
    c4S1.poolStats.totalLoaned ≤ c4S1.poolStats.totalLiquidity * 9000 / 10000 ∧
    LendingPool.fundLoan c4S0 c4U0 1 2 200 RiskTier.LOW
      = .error "LendingPool: Insufficient liquidity" :=
  ⟨rfl,
   C4_fundLoan_utilization_cap.1 c4S0 c4U0 1 2 50 RiskTier.LOW c4S1 c4U1 rfl,
   C4_fundLoan_utilization_cap.2.1 c4S0 c4U0 1 2 200 RiskTier.LOW
     (by decide) (by decide)⟩

end BNPL

namespace BNPL

/-- C5: evaluation of the code at the failing input.  On a zero-initialized
(fresh) borrower profile the stored `creditScore` is `0`; an on-time
`recordPayment` runs the bonus branch of `_updateCreditScore`, which only
clamps from above, and stores `0 + 5 = 5` — outside the documented
`300–850` scale, contradicting the claimed clamping to `[300, 850]`. -/
theorem C5_recordPayment_fresh_profile_score_out_of_range :
    (RiskEngine.recordPayment RiskEngine.initState 1 100 true 0).map
        (fun s => (s.creditProfiles 1).creditScore) = Except.ok 5 ∧
    ¬ (RiskEngine.MIN_SCORE ≤ 5 ∧ (5 : Nat) ≤ RiskEngine.SCORE_SCALE) :=
  ⟨rfl, by decide⟩

/-- C9: `liquidateCollateral` on a locked position with matching token and
`amount ≤` the locked amount: (1) called before `lockedAt +
liquidationDelay` it fails with the liquidation-delay policy error (and, the
operation having reverted, the position is unchanged); (2) called at or
after the delay, with the token supported and its price set, it succeeds,
decrements the position by `amount`, and returns `recoveredAmount =
collateralValue + collateralValue * liquidationBonus / 10000`, which equals
the claim's `collateralValue × (1 + liquidationBonusBps/10000)` in integer
arithmetic. -/
theorem C9_liquidateCollateral_delay_and_bonus
    (s : CollateralManager.State) (loanId token amount now : Nat)
    (hl : (s.collateralPositions loanId).isLocked = true)
    (ht : (s.collateralPositions loanId).token = token)
    (ha : amount ≤ (s.collateralPositions loanId).amount) :
    (now < (s.collateralPositions loanId).lockedAt + s.liquidationDelay →
       CollateralManager.liquidateCollateral s loanId token amount now
         = .error "CollateralManager: Liquidation delay not met") ∧
    ((s.collateralPositions loanId).lockedAt + s.liquidationDelay ≤ now →
     (s.tokenConfigs token).isSupported = true →
     0 < s.tokenPrices token →
     ∃ (s' : CollateralManager.State) (r : Nat),
       CollateralManager.liquidateCollateral s loanId token amount now
           = .ok (s', r) ∧
       r = amount * s.tokenPrices token / 10 ^ s.decimals token
           + (amount * s.tokenPrices token / 10 ^ s.decimals token)
             * (s.tokenConfigs token).liquidationBonus / 10000 ∧
       r = (amount * s.tokenPrices token / 10 ^ s.decimals token)
             * (10000 + (s.tokenConfigs token).liquidationBonus) / 10000 ∧
       (s'.collateralPositions loanId).amount
           = (s.collateralPositions loanId).amount - amount) := by
  constructor
  · intro hd
    unfold CollateralManager.liquidateCollateral
    rw [if_neg (by simp [hl]), if_neg (by simp [ht]), if_neg (by omega),
        if_pos hd]
  · intro hd hsup hp
    unfold CollateralManager.liquidateCollateral
    rw [if_neg (by simp [hl]), if_neg (by simp [ht]), if_neg (by omega),
        if_neg (by omega)]
    unfold CollateralManager.getTokenPrice
    rw [if_neg (by simp [hsup]), if_neg (by omega)]
    dsimp only
    refine ⟨_, _, rfl, rfl, ?_, ?_⟩
    · have hsplit : amount * s.tokenPrices token / 10 ^ s.decimals token
          * (10000 + (s.tokenConfigs token).liquidationBonus)
          = amount * s.tokenPrices token / 10 ^ s.decimals token
              * (s.tokenConfigs token).liquidationBonus
            + amount * s.tokenPrices token / 10 ^ s.decimals token * 10000 := by
        ring
      rw [hsplit]
      simp only [CollateralManager.BASIS_POINTS]
      omega
    · simp only [Function.update_same]
      split <;> rfl

/-- Collateral-manager state used for C9's witness: loan 7 holds 4 units of
token 5 (price 3, 0 decimals, 50% liquidation bonus), locked at time 0 with
the default 48-hour delay. -/
def c9S0 : CollateralManager.State :=
  { collateralPositions := fun i =>
      if i = 7 then
        { owner := 1, token := 5, amount := 4, lockedAt := 0, loanId := 7
          isLocked := true }
      else CollateralManager.CollateralPosition.zero
    tokenConfigs := fun t =>
      if t = 5 then
        { isSupported := true, liquidationThreshold := 11000
          liquidationBonus := 5000, maxLoanToValue := 8000, priceFeed := 9 }
      else
        { isSupported := false, liquidationThreshold := 0
          liquidationBonus := 0, maxLoanToValue := 0, priceFeed := 0 }
    tokenPrices := fun t => if t = 5 then 3 else 0
    liquidationDelay := 48 * 3600
    decimals := fun _ => 0 }

/-- Witness for C9: at `now = 100` (before the 48h delay) liquidation fails
with the policy error; at `now = 172800` it succeeds with
`recoveredAmount = 12 + 12*5000/10000 = 18`. -/
theorem C9_liquidateCollateral_delay_and_bonus_witness :
    CollateralManager.liquidateCollateral c9S0 7 5 4 100
        = .error "CollateralManager: Liquidation delay not met" ∧
    ∃ (s' : CollateralManager.State) (r : Nat),
      CollateralManager.liquidateCollateral c9S0 7 5 4 172800 = .ok (s', r) ∧
      r = 12 + 12 * 5000 / 10000 ∧
      r = 12 * (10000 + 5000) / 10000 ∧
      (s'.collateralPositions 7).amount = 0 :=
  ⟨(C9_liquidateCollateral_delay_and_bonus c9S0 7 5 4 100 (by decide)
      (by decide) (by decide)).1 (by decide),
   by
    obtain ⟨s', r, h1, h2, h3, h4⟩ :=
      (C9_liquidateCollateral_delay_and_bonus c9S0 7 5 4 172800 (by decide)
        (by decide) (by decide)).2 (by decide) (by decide) (by decide)
    exact ⟨s', r, h1, by simpa using h2, by simpa using h3, by simpa using h4⟩⟩

end BNPL

namespace BNPL.PaymentController

/-- The payment record `_createPaymentSchedule` stores at loop index `i` for
a loan: the final installment absorbs the rounding remainder. -/
def scheduledPayment (loan : Loan) (loanId pid i : Nat) : Payment :=
  { id := pid, loanId := loanId
    amount :=
      if i = loan.terms.installments - 1 then
        loan.totalAmount
          - loan.totalAmount / loan.terms.installments * (loan.terms.installments - 1)
      else loan.totalAmount / loan.terms.installments
    dueDate := loan.createdAt + (i + 1) * loan.terms.intervalDays * SECONDS_PER_DAY
    paidDate := 0, status := PaymentStatus.PENDING, lateFee := 0 }

/-- Characterization of the `_createPaymentSchedule` loop: running `r`
iterations from index `i` allocates ids `nextPaymentId .. nextPaymentId+r-1`,
stores the corresponding `scheduledPayment` records, appends the ids to
`loanPayments[loanId]`, and leaves loans and previously stored payments
unchanged. -/
theorem scheduleFrom_spec (r : Nat) :
    ∀ (s : State) (loanId i : Nat),
      (scheduleFrom s loanId i r).nextPaymentId = s.nextPaymentId + r ∧
      (scheduleFrom s loanId i r).loans = s.loans ∧
      (scheduleFrom s loanId i r).loanPayments loanId
        = s.loanPayments loanId
          ++ (List.range r).map (fun k => s.nextPaymentId + k) ∧
      (∀ pid, pid < s.nextPaymentId →
        (scheduleFrom s loanId i r).payments pid = s.payments pid) ∧
      (∀ k, k < r →
        (scheduleFrom s loanId i r).payments (s.nextPaymentId + k)
          = scheduledPayment (s.loans loanId) loanId (s.nextPaymentId + k) (i + k)) := by
  induction r with
  | zero =>
    intro s loanId i
    refine ⟨rfl, rfl, by simp [scheduleFrom], fun pid _ => rfl, fun k hk => by omega⟩
  | succ r ih =>
    intro s loanId i
    obtain ⟨h1, h2, h3, h4, h5⟩ := ih (scheduleStep s loanId i) loanId (i + 1)
    have hstep1 : (scheduleStep s loanId i).nextPaymentId = s.nextPaymentId + 1 := rfl
    have hstep2 : (scheduleStep s loanId i).loans = s.loans := rfl
    have hstep3 : (scheduleStep s loanId i).loanPayments loanId
        = s.loanPayments loanId ++ [s.nextPaymentId] := by
      simp [scheduleStep, Function.update_same]
    have hstep4 : ∀ pid, pid < s.nextPaymentId →
        (scheduleStep s loanId i).payments pid = s.payments pid := by
      intro pid hpid
      simp [scheduleStep, Function.update_noteq (by omega : pid ≠ s.nextPaymentId)]
    have hstep5 : (scheduleStep s loanId i).payments s.nextPaymentId
        = scheduledPayment (s.loans loanId) loanId s.nextPaymentId i := by
      simp [scheduleStep, scheduledPayment, Function.update_same]
    have hrun : scheduleFrom s loanId i (r + 1)
        = scheduleFrom (scheduleStep s loanId i) loanId (i + 1) r := rfl
    refine ⟨?_, ?_, ?_, ?_, ?_⟩
    · rw [hrun, h1, hstep1]; omega
    · rw [hrun, h2, hstep2]
    · rw [hrun, h3, hstep3, hstep1, List.append_assoc, List.singleton_append,
          List.range_succ_eq_map, List.map_cons, List.map_map]
      have hfun : (fun k => s.nextPaymentId + 1 + k)
          = ((fun k => s.nextPaymentId + k) ∘ Nat.succ) := by
        funext k
        simp only [Function.comp_apply, Nat.succ_eq_add_one]
        omega
      rw [hfun]
      simp
    · intro pid hpid
      rw [hrun, h4 pid (by omega), hstep4 pid hpid]
    · intro k hk
      match k with
      | 0 =>
        rw [hrun, h4 (s.nextPaymentId + 0) (by omega)]
        simpa using hstep5
      | Nat.succ j =>
        have hj : j < r := by omega
        have := h5 j hj
        rw [hstep1, hstep2] at this
        rw [hrun]
        have hidx : s.nextPaymentId + 1 + j = s.nextPaymentId + (j + 1) := by omega
        rw [hidx] at this
        rw [this]
        have hidx2 : i + 1 + j = i + (j + 1) := by omega
        rw [hidx2]

/-- The schedule amounts (first `n-1` of `T / n`, last `T - T/n*(n-1)`) sum
to `T` exactly. -/
theorem scheduleAmounts_sum (T n : Nat) (hn : 1 ≤ n) :
    ((List.range n).map
        (fun k => if k = n - 1 then T - T / n * (n - 1) else T / n)).sum = T := by
  obtain ⟨m, rfl⟩ : ∃ m, n = m + 1 := ⟨n - 1, by omega⟩
  rw [List.range_succ, List.map_append, List.sum_append]
  have hmap : (List.range m).map
      (fun k => if k = m + 1 - 1 then T - T / (m + 1) * (m + 1 - 1) else T / (m + 1))
      = (List.range m).map (fun _ => T / (m + 1)) := by
    apply List.map_congr_left
    intro k hk
    have hkm : k < m := List.mem_range.mp hk
    simp only [Nat.add_sub_cancel]
    rw [if_neg (by omega : ¬ k = m)]
  rw [hmap]
  simp only [List.map_const', List.sum_replicate, List.length_range,
    smul_eq_mul, List.map_cons, List.map_nil, List.sum_cons, List.sum_nil,
    Nat.add_sub_cancel, eq_self_iff_true, if_true]
  have h1 : T / (m + 1) * m ≤ T :=
    le_trans (Nat.mul_le_mul_left _ (Nat.le_succ m)) (Nat.div_mul_le_self T (m + 1))
  have h2 : m * (T / (m + 1)) = T / (m + 1) * m := Nat.mul_comm _ _
  omega

end BNPL.PaymentController

namespace BNPL

/-- C7: `_createPaymentSchedule` on a loan with `totalAmount T` and `n ≥ 1`
installments generates exactly `n` PENDING payments with fresh consecutive
ids: each of amount `T / n` except the last, which is
`T - (T/n)*(n-1)`, so the stored amounts sum to `T` exactly; payment `k`
(0-based) is due at `createdAt + (k+1) * intervalDays` in seconds.  The same
holds through `PaymentController.fundLoan`, which invokes the schedule
generation; and `_calculateTotalAmount` is `principal +
principal*interestRateBps/10000`. -/
theorem C7_paymentSchedule_generation :
    (∀ (s : PaymentController.State) (loanId : Nat),
       1 ≤ (s.loans loanId).terms.installments →
       (PaymentController.createPaymentSchedule s loanId).loanPayments loanId
         = s.loanPayments loanId
           ++ (List.range (s.loans loanId).terms.installments).map
               (fun k => s.nextPaymentId + k) ∧
       (∀ k, k < (s.loans loanId).terms.installments →
         (PaymentController.createPaymentSchedule s loanId).payments
             (s.nextPaymentId + k)
           = PaymentController.scheduledPayment (s.loans loanId) loanId
               (s.nextPaymentId + k) k) ∧
       ((List.range (s.loans loanId).terms.installments).map
           (fun k => ((PaymentController.createPaymentSchedule s loanId).payments
               (s.nextPaymentId + k)).amount)).sum
         = (s.loans loanId).totalAmount) ∧
    (∀ (w : World) (loanId now : Nat) (w' : World),
       World.fundLoan w loanId now = .ok w' →
       w'.ctrl.loanPayments loanId
         = w.ctrl.loanPayments loanId
           ++ (List.range (w.ctrl.loans loanId).terms.installments).map
               (fun k => w.ctrl.nextPaymentId + k) ∧
       (∀ k, k < (w.ctrl.loans loanId).terms.installments →
         w'.ctrl.payments (w.ctrl.nextPaymentId + k)
           = PaymentController.scheduledPayment (w.ctrl.loans loanId) loanId
               (w.ctrl.nextPaymentId + k) k)) ∧
    (∀ principal interestRate : Nat,
       PaymentController.calculateTotalAmount principal interestRate
         = principal + principal * interestRate / 10000) := by
  have main : ∀ (s : PaymentController.State) (loanId : Nat),
      (PaymentController.createPaymentSchedule s loanId).loanPayments loanId
        = s.loanPayments loanId
          ++ (List.range (s.loans loanId).terms.installments).map
              (fun k => s.nextPaymentId + k) ∧
      (∀ k, k < (s.loans loanId).terms.installments →
        (PaymentController.createPaymentSchedule s loanId).payments
            (s.nextPaymentId + k)
          = PaymentController.scheduledPayment (s.loans loanId) loanId
              (s.nextPaymentId + k) k) := by
    intro s loanId
    obtain ⟨h1, h2, h3, h4, h5⟩ :=
      PaymentController.scheduleFrom_spec (s.loans loanId).terms.installments
        s loanId 0
    have hdef : PaymentController.createPaymentSchedule s loanId
        = PaymentController.scheduleFrom s loanId 0
            (s.loans loanId).terms.installments := rfl
    exact ⟨by rw [hdef]; exact h3,
           fun k hk => by rw [hdef]; simpa using h5 k hk⟩
  refine ⟨?_, ?_, fun p r => rfl⟩
  · intro s loanId hn
    obtain ⟨hlp, hpay⟩ := main s loanId
    refine ⟨hlp, hpay, ?_⟩
    have hmap : (List.range (s.loans loanId).terms.installments).map
        (fun k => ((PaymentController.createPaymentSchedule s loanId).payments
            (s.nextPaymentId + k)).amount)
        = (List.range (s.loans loanId).terms.installments).map
          (fun k => if k = (s.loans loanId).terms.installments - 1
             then (s.loans loanId).totalAmount
               - (s.loans loanId).totalAmount / (s.loans loanId).terms.installments
                 * ((s.loans loanId).terms.installments - 1)
             else (s.loans loanId).totalAmount / (s.loans loanId).terms.installments) := by
      apply List.map_congr_left
      intro k hk
      rw [hpay k (List.mem_range.mp hk)]
      rfl
    rw [hmap]
    exact PaymentController.scheduleAmounts_sum _ _ hn
  · intro w loanId now w' h
    unfold World.fundLoan at h
    dsimp only at h
    split at h
    · cases h
    · split at h
      · cases h
      · cases hf : LendingPool.fundLoan w.pool w.usdc loanId
            (w.ctrl.loans loanId).borrower (w.ctrl.loans loanId).principal
            (w.ctrl.loans loanId).riskTier with
        | error e => rw [hf] at h; dsimp only at h; cases h
        | ok pu =>
          obtain ⟨pool1, u1⟩ := pu
          rw [hf] at h; dsimp only at h
          unfold World.settleMerchant at h
          dsimp only at h
          cases htr : erc20Transfer u1
              CONTROLLER_ADDR (w.ctrl.loans loanId).merchant
              (w.ctrl.loans loanId).principal with
          | error e => rw [htr] at h; dsimp only at h; cases h
          | ok u2 =>
            rw [htr] at h; dsimp only at h
            injection h with h1
            subst h1
            obtain ⟨hlp, hpay⟩ := main
              { w.ctrl with loans :=
                  (Function.update w.ctrl.loans loanId
                    { w.ctrl.loans loanId with
                        status := LoanStatus.ACTIVE
                        nextPaymentDue := now + (w.ctrl.loans loanId).terms.intervalDays
                          * PaymentController.SECONDS_PER_DAY }) } loanId
            simp only [Function.update_same] at hlp hpay
            constructor
            · exact hlp
            · intro k hk
              exact hpay k hk

end BNPL

namespace BNPL

/-- Controller state used for C7's witness: one ACTIVE loan (id 1) with
principal 1000, 0% interest (`totalAmountDue` 1000), 4 installments every 14
days, created at time 0. -/
def c7S0 : PaymentController.State :=
  { nextLoanId := 2, nextPaymentId := 1
    loans := fun i =>
      if i = 1 then
        { PaymentController.Loan.zero with
            id := 1, borrower := 1, merchant := 2, principal := 1000
            totalAmount := PaymentController.calculateTotalAmount 1000 0
            terms := { installments := 4, intervalDays := 14
                       interestRate := 0, lateFeeRate := 250 }
            status := LoanStatus.ACTIVE, createdAt := 0
            remainingAmount := 1000 }
      else PaymentController.Loan.zero
    payments := fun _ => PaymentController.Payment.zero
    loanPayments := fun _ => []
    merchants := fun _ =>
      { name := "m", wallet := 2, totalVolume := 0, totalOrders := 0
        isActive := true, settlementDelay := 0 } }

/-- Witness for C7 on the spec's Scenario B: principal 1000, 0% interest,
4 installments → totalAmountDue 1000, four PENDING payments of 250 each
summing to 1000, the first due at `createdAt + 14 days`. -/
theorem C7_paymentSchedule_generation_witness :
    1 ≤ (c7S0.loans 1).terms.installments ∧
    ((List.range (c7S0.loans 1).terms.installments).map
        (fun k => ((PaymentController.createPaymentSchedule c7S0 1).payments
            (c7S0.nextPaymentId + k)).amount)).sum
      = (c7S0.loans 1).totalAmount ∧
    PaymentController.calculateTotalAmount 1000 0 = 1000 ∧
    (PaymentController.createPaymentSchedule c7S0 1).loanPayments 1 = [1, 2, 3, 4] ∧
    (∀ pid ∈ [1, 2, 3, 4],
      ((PaymentController.createPaymentSchedule c7S0 1).payments pid).amount = 250 ∧
      ((PaymentController.createPaymentSchedule c7S0 1).payments pid).status
        = PaymentStatus.PENDING) ∧
    ((PaymentController.createPaymentSchedule c7S0 1).payments 1).dueDate
      = 14 * 86400 :=
  ⟨by decide,
   (C7_paymentSchedule_generation.1 c7S0 1 (by decide)).2.2,
   C7_paymentSchedule_generation.2.2 1000 0,
   by decide, by decide, by decide⟩

end BNPL

namespace BNPL

/-- Lender-held USDC for C10's witness deposit. -/
def c10U0 : Usdc := fun a => if a = 1 then 500 else 0

/-- Pool state after the witness deposit of 300 at tier MEDIUM. -/
def c10S1 : LendingPool.State :=
  match LendingPool.deposit LendingPool.initState c10U0 1 0 300 RiskTier.MEDIUM with
  | .ok r => r.1
  | .error _ => LendingPool.initState

/-- USDC balances after the witness deposit of 300. -/
def c10U1 : Usdc :=
  match LendingPool.deposit LendingPool.initState c10U0 1 0 300 RiskTier.MEDIUM with
  | .ok r => r.2
  | .error _ => c10U0

/-- Witness for C10: a concrete successful deposit of 300 credits the
lender, the pool and the tier by 300 and the reserve fund by
`300 * 200 / 10000 = 6`. -/
theorem C10_deposit_effects_witness :
    LendingPool.deposit LendingPool.initState c10U0 1 0 300 RiskTier.MEDIUM
        = .ok (c10S1, c10U1) ∧
    ((c10S1.lenderPositions 1).deposited = 0 + 300 ∧
     c10S1.poolStats.totalLiquidity = 0 + 300 ∧
     c10S1.tierLiquidity RiskTier.MEDIUM = 0 + 300 ∧
     c10S1.reserveFund = 0 + 300 * 200 / 10000) :=
  ⟨rfl, C10_deposit_effects LendingPool.initState c10U0 1 0 300
      RiskTier.MEDIUM c10S1 c10U1 rfl⟩

end BNPL

namespace BNPL.LendingPool

/-- Summing a pointwise `if`-increment over a set containing the touched
address adds the increment once. -/
theorem sum_if_add (f : Addr → Nat) (A : Finset Addr) (x amount : Nat)
    (hx : x ∈ A) :
    (A.sum fun a => if a = x then f a + amount else f a) = A.sum f + amount := by
  classical
  have hfun : (fun a => if a = x then f a + amount else f a)
      = fun a => f a + (if a = x then amount else 0) := by
    funext a
    by_cases h : a = x <;> simp [h]
  rw [hfun, Finset.sum_add_distrib, Finset.sum_ite_eq' A x (fun _ => amount)]
  simp [hx]

/-- Summing a pointwise `if`-decrement over a set containing the touched
address subtracts the decrement once (when it does not underflow). -/
theorem sum_if_sub (f : Addr → Nat) (A : Finset Addr) (x amount : Nat)
    (hx : x ∈ A) (hle : amount ≤ f x) :
    (A.sum fun a => if a = x then f a - amount else f a) = A.sum f - amount := by
  classical
  have herase : ((A.erase x).sum fun a => if a = x then f a - amount else f a)
      = (A.erase x).sum f := by
    apply Finset.sum_congr rfl
    intro a ha
    rw [if_neg (Finset.ne_of_mem_erase ha)]
  have hsplit1 : (A.sum fun a => if a = x then f a - amount else f a)
      = (f x - amount) + (A.erase x).sum f := by
    rw [← Finset.add_sum_erase A (fun a => if a = x then f a - amount else f a) hx,
        herase, if_pos rfl]
  have hsplit2 : A.sum f = f x + (A.erase x).sum f :=
    (Finset.add_sum_erase A f hx).symm
  omega

/-- State effects of a successful `deposit`: pointwise description of the
`deposited` balances and the liquidity increment. -/
theorem deposit_ok_state (s : State) (u : Usdc) (sender now amount : Nat)
    (tier : RiskTier) (s' : State) (u' : Usdc)
    (h : deposit s u sender now amount tier = .ok (s', u')) :
    (∀ a, (s'.lenderPositions a).deposited
       = if a = sender then (s.lenderPositions a).deposited + amount
         else (s.lenderPositions a).deposited) ∧
    s'.poolStats.totalLiquidity = s.poolStats.totalLiquidity + amount := by
  unfold deposit at h
  split at h
  · cases h
  · cases htr : erc20Transfer u sender POOL_ADDR amount with
    | error e => rw [htr] at h; dsimp only at h; cases h
    | ok u2 =>
      rw [htr] at h; dsimp only at h
      split at h <;>
      · injection h with h1
        injection h1 with hs hu
        subst hs
        refine ⟨?_, by simp [updateLenderYield_poolStats]⟩
        intro a
        rcases eq_or_ne a sender with ha | ha
        · subst ha
          simp [Function.update_same, updateLenderYield_deposited]
        · simp [Function.update_noteq ha, updateLenderYield_deposited, ha]

/-- State effects of a successful `withdraw`: pointwise description of the
`deposited` balances and the liquidity decrement, with the bounds that make
the `Nat` subtractions exact. -/
theorem withdraw_ok_state (s : State) (u : Usdc) (sender now amount : Nat)
    (s' : State) (u' : Usdc)
    (h : withdraw s u sender now amount = .ok (s', u')) :
    (∀ a, (s'.lenderPositions a).deposited
       = if a = sender then (s.lenderPositions a).deposited - amount
         else (s.lenderPositions a).deposited) ∧
    amount ≤ (s.lenderPositions sender).deposited ∧
    s'.poolStats.totalLiquidity = s.poolStats.totalLiquidity - amount ∧
    amount ≤ s.poolStats.totalLiquidity := by
  unfold withdraw at h
  split at h
  · cases h
  · rename_i hdep
    dsimp only at h
    rw [updateLenderYield_poolStats, updateLenderYield_totalSupply,
        updateLenderYield_tierLiquidity, updateLenderYield_riskTier,
        updateLenderYield_deposited] at h
    split at h
    · cases h
    · cases hts : checkedSub
          (s.tierLiquidity (s.lenderPositions sender).riskTier) amount with
      | error e => rw [hts] at h; dsimp only at h; cases h
      | ok tl =>
        rw [hts] at h; dsimp only at h
        by_cases hz : (s.lenderPositions sender).deposited - amount = 0
        case pos =>
          rw [if_pos hz] at h
          dsimp only at h
          cases hls : checkedSub s.poolStats.totalLiquidity amount with
          | error e => rw [hls] at h; dsimp only at h; cases h
          | ok liq =>
            rw [hls] at h; dsimp only at h
            cases hss : checkedSub s.totalSupply amount with
            | error e => rw [hss] at h; dsimp only at h; cases h
            | ok ts2 =>
              rw [hss] at h; dsimp only at h
              cases htr2 : erc20Transfer u POOL_ADDR sender amount with
              | error e => rw [htr2] at h; dsimp only at h; cases h
              | ok u3 =>
                rw [htr2] at h; dsimp only at h
                injection h with h1
                injection h1 with hs hu
                subst hs
                unfold checkedSub at hls
                split at hls
                · injection hls with hliq
                  rename_i hliqle
                  refine ⟨?_, by omega, by simpa using hliq.symm, hliqle⟩
                  intro a
                  rcases eq_or_ne a sender with ha | ha
                  · subst ha
                    simp [Function.update_same, updateLenderYield_deposited]
                  · simp [Function.update_noteq ha, updateLenderYield_deposited, ha]
                · cases hls
        case neg =>
          rw [if_neg hz] at h
          cases hls : checkedSub s.poolStats.totalLiquidity amount with
          | error e => rw [hls] at h; dsimp only at h; cases h
          | ok liq =>
            rw [hls] at h; dsimp only at h
            cases hss : checkedSub s.totalSupply amount with
            | error e => rw [hss] at h; dsimp only at h; cases h
            | ok ts2 =>
              rw [hss] at h; dsimp only at h
              cases htr2 : erc20Transfer u POOL_ADDR sender amount with
              | error e => rw [htr2] at h; dsimp only at h; cases h
              | ok u3 =>
                rw [htr2] at h; dsimp only at h
                injection h with h1
                injection h1 with hs hu
                subst hs
                unfold checkedSub at hls
                split at hls
                · injection hls with hliq
                  rename_i hliqle
                  refine ⟨?_, by omega, by simpa using hliq.symm, hliqle⟩
                  intro a
                  rcases eq_or_ne a sender with ha | ha
                  · subst ha
                    simp [Function.update_same, updateLenderYield_deposited]
                  · simp [Function.update_noteq ha, updateLenderYield_deposited, ha]
                · cases hls

/-- A successful `claimYield` changes no `deposited` balance and no
`totalLiquidity`. -/
theorem claimYield_ok_state (s : State) (u : Usdc) (sender now : Nat)
    (s' : State) (u' : Usdc)
    (h : claimYield s u sender now = .ok (s', u')) :
    (∀ a, (s'.lenderPositions a).deposited = (s.lenderPositions a).deposited) ∧
    s'.poolStats.totalLiquidity = s.poolStats.totalLiquidity := by
  unfold claimYield at h
  dsimp only at h
  split at h
  · cases h
  · cases htr : erc20Transfer u POOL_ADDR sender
        ((updateLenderYield s sender now).lenderPositions sender).yieldEarned with
    | error e => rw [htr] at h; dsimp only at h; cases h
    | ok u2 =>
      rw [htr] at h; dsimp only at h
      injection h with h1
      injection h1 with hs hu
      subst hs
      refine ⟨?_, by simp [updateLenderYield_poolStats]⟩
      intro a
      rcases eq_or_ne a sender with ha | ha
      · subst ha
        simp [Function.update_same, updateLenderYield_deposited]
      · simp [Function.update_noteq ha, updateLenderYield_deposited, ha]

/-- A successful pool `fundLoan` changes no lender position and no
`totalLiquidity` (only `totalLoaned`). -/
theorem fundLoan_ok_state (s : State) (u : Usdc) (loanId : Nat)
    (borrower : Addr) (amount : Nat) (tier : RiskTier) (s' : State) (u' : Usdc)
    (h : fundLoan s u loanId borrower amount tier = .ok (s', u')) :
    s'.lenderPositions = s.lenderPositions ∧
    s'.poolStats.totalLiquidity = s.poolStats.totalLiquidity ∧
    s'.poolStats.totalLoaned = s.poolStats.totalLoaned + amount := by
  unfold fundLoan at h
  split at h
  · cases h
  · split at h
    · cases h
    · split at h
      · cases h
      · cases htr : erc20Transfer u POOL_ADDR borrower amount with
        | error e => rw [htr] at h; dsimp only at h; cases h
        | ok u2 =>
          rw [htr] at h; dsimp only at h
          injection h with h1
          injection h1 with hs hu
          subst hs
          exact ⟨rfl, rfl, rfl⟩

/-- A successful `repayLoan` changes no lender position but increments
`totalLiquidity` by the repaid amount (`_distributeYield` is a stub). -/
theorem repayLoan_ok_state (s : State) (u : Usdc) (caller : Addr)
    (loanId amount : Nat) (tier : RiskTier) (s' : State) (u' : Usdc)
    (h : repayLoan s u caller loanId amount tier = .ok (s', u')) :
    s'.lenderPositions = s.lenderPositions ∧
    s'.poolStats.totalLiquidity = s.poolStats.totalLiquidity + amount ∧
    s'.poolStats.totalLoaned = s.poolStats.totalLoaned - amount ∧
    amount ≤ s.poolStats.totalLoaned := by
  unfold repayLoan at h
  split at h
  · cases h
  · cases htr : erc20Transfer u caller POOL_ADDR amount with
    | error e => rw [htr] at h; dsimp only at h; cases h
    | ok u2 =>
      rw [htr] at h; dsimp only at h
      cases hcs : checkedSub s.poolStats.totalLoaned amount with
      | error e => rw [hcs] at h; dsimp only at h; cases h
      | ok tl =>
        rw [hcs] at h; dsimp only at h
        unfold checkedSub at hcs
        split at hcs
        · injection hcs with htl
          injection h with h1
          injection h1 with hs hu
          subst hs
          exact ⟨rfl, rfl, by simpa [distributeYield] using htl.symm, by omega⟩
        · cases hcs

/-- State effects of a successful `handleDefault`: the reserve fund absorbs
the loss (emptying entirely on a shortfall), no lender position changes
(`_distributeLoss` is a stub), `recoveredAmount` is added to
`totalLiquidity`, and `totalDefaulted`/`totalLoaned` are updated. -/
theorem handleDefault_ok_state (s : State) (u : Usdc)
    (loanId lossAmount recoveredAmount : Nat) (s' : State) (u' : Usdc)
    (h : handleDefault s u loanId lossAmount recoveredAmount = .ok (s', u')) :
    s'.lenderPositions = s.lenderPositions ∧
    s'.reserveFund
      = (if lossAmount ≤ s.reserveFund then s.reserveFund - lossAmount else 0) ∧
    s'.poolStats.totalLiquidity
      = s.poolStats.totalLiquidity + recoveredAmount ∧
    s'.poolStats.totalDefaulted = s.poolStats.totalDefaulted + lossAmount ∧
    s'.poolStats.totalLoaned = s.poolStats.totalLoaned - lossAmount ∧
    lossAmount ≤ s.poolStats.totalLoaned := by
  unfold handleDefault at h
  split at h
  · cases h
  · split at h <;> rename_i hres <;>
      split at h <;> rename_i hrec <;>
      · dsimp only [distributeLoss] at h
        cases hcs : checkedSub s.poolStats.totalLoaned lossAmount with
        | error e => rw [hcs] at h; dsimp only at h; cases h
        | ok tl =>
          rw [hcs] at h; dsimp only at h
          unfold checkedSub at hcs
          split at hcs
          · injection hcs with htl
            injection h with h1
            injection h1 with hs hu
            subst hs
            refine ⟨rfl, by simp [hres], by (try dsimp only) <;> omega,
              rfl, by (try dsimp only) <;> omega, by omega⟩
          · cases hcs

end BNPL.LendingPool

namespace BNPL

/-- C2 (amended): the conservation `Σ deposited = totalLiquidity` (over any
address set containing the acting lender) is preserved by `deposit`,
`withdraw`, `claimYield` and `fundLoan`; but `repayLoan` adds the repaid
amount to `totalLiquidity` while changing no lender position
(`_distributeYield` is a stub), and `handleDefault` adds `recoveredAmount`
to `totalLiquidity` while changing no lender position (`_distributeLoss` is
a stub), so those two operations break the equality whenever `amount > 0`,
respectively `recoveredAmount > 0`. -/
theorem C2_conservation_per_operation :
    (∀ (s : LendingPool.State) (u : Usdc) (sender now amount : Nat)
       (tier : RiskTier) (s' : LendingPool.State) (u' : Usdc) (A : Finset Addr),
       sender ∈ A →
       LendingPool.deposit s u sender now amount tier = .ok (s', u') →
       LendingPool.sumDeposits s A = s.poolStats.totalLiquidity →
       LendingPool.sumDeposits s' A = s'.poolStats.totalLiquidity) ∧
    (∀ (s : LendingPool.State) (u : Usdc) (sender now amount : Nat)
       (s' : LendingPool.State) (u' : Usdc) (A : Finset Addr),
       sender ∈ A →
       LendingPool.withdraw s u sender now amount = .ok (s', u') →
       LendingPool.sumDeposits s A = s.poolStats.totalLiquidity →
       LendingPool.sumDeposits s' A = s'.poolStats.totalLiquidity) ∧
    (∀ (s : LendingPool.State) (u : Usdc) (sender now : Nat)
       (s' : LendingPool.State) (u' : Usdc) (A : Finset Addr),
       LendingPool.claimYield s u sender now = .ok (s', u') →
       LendingPool.sumDeposits s A = s.poolStats.totalLiquidity →
       LendingPool.sumDeposits s' A = s'.poolStats.totalLiquidity) ∧
    (∀ (s : LendingPool.State) (u : Usdc) (loanId : Nat) (borrower : Addr)
       (amount : Nat) (tier : RiskTier) (s' : LendingPool.State) (u' : Usdc)
       (A : Finset Addr),
       LendingPool.fundLoan s u loanId borrower amount tier = .ok (s', u') →
       LendingPool.sumDeposits s A = s.poolStats.totalLiquidity →
       LendingPool.sumDeposits s' A = s'.poolStats.totalLiquidity) ∧
    (∀ (s : LendingPool.State) (u : Usdc) (caller : Addr) (loanId amount : Nat)
       (tier : RiskTier) (s' : LendingPool.State) (u' : Usdc),
       LendingPool.repayLoan s u caller loanId amount tier = .ok (s', u') →
       s'.lenderPositions = s.lenderPositions ∧
       s'.poolStats.totalLiquidity = s.poolStats.totalLiquidity + amount) ∧
    (∀ (s : LendingPool.State) (u : Usdc) (loanId lossAmount recoveredAmount : Nat)
       (s' : LendingPool.State) (u' : Usdc),
       LendingPool.handleDefault s u loanId lossAmount recoveredAmount
           = .ok (s', u') →
       s'.lenderPositions = s.lenderPositions ∧
       s'.poolStats.totalLiquidity
           = s.poolStats.totalLiquidity + recoveredAmount) := by
  refine ⟨?_, ?_, ?_, ?_, ?_, ?_⟩
  · intro s u sender now amount tier s' u' A hA h hinv
    obtain ⟨hpt, hL⟩ := LendingPool.deposit_ok_state s u sender now amount tier s' u' h
    have hsum : LendingPool.sumDeposits s' A
        = A.sum (fun a => if a = sender then (s.lenderPositions a).deposited + amount
            else (s.lenderPositions a).deposited) :=
      Finset.sum_congr rfl (fun a _ => hpt a)
    rw [hsum, LendingPool.sum_if_add _ A sender amount hA]
    unfold LendingPool.sumDeposits at hinv
    omega
  · intro s u sender now amount s' u' A hA h hinv
    obtain ⟨hpt, hdep, hL, hLle⟩ :=
      LendingPool.withdraw_ok_state s u sender now amount s' u' h
    have hsum : LendingPool.sumDeposits s' A
        = A.sum (fun a => if a = sender then (s.lenderPositions a).deposited - amount
            else (s.lenderPositions a).deposited) :=
      Finset.sum_congr rfl (fun a _ => hpt a)
    rw [hsum, LendingPool.sum_if_sub _ A sender amount hA hdep]
    unfold LendingPool.sumDeposits at hinv
    omega
  · intro s u sender now s' u' A h hinv
    obtain ⟨hpt, hL⟩ := LendingPool.claimYield_ok_state s u sender now s' u' h
    have hsum : LendingPool.sumDeposits s' A = LendingPool.sumDeposits s A :=
      Finset.sum_congr rfl (fun a _ => hpt a)
    rw [hsum, hL, hinv]
  · intro s u loanId borrower amount tier s' u' A h hinv
    obtain ⟨hpt, hL, _⟩ :=
      LendingPool.fundLoan_ok_state s u loanId borrower amount tier s' u' h
    have hsum : LendingPool.sumDeposits s' A = LendingPool.sumDeposits s A := by
      unfold LendingPool.sumDeposits
      rw [hpt]
    rw [hsum, hL, hinv]
  · intro s u caller loanId amount tier s' u' h
    obtain ⟨hpt, hL, _, _⟩ :=
      LendingPool.repayLoan_ok_state s u caller loanId amount tier s' u' h
    exact ⟨hpt, hL⟩
  · intro s u loanId lossAmount recoveredAmount s' u' h
    obtain ⟨hpt, _, hL, _, _, _⟩ :=
      LendingPool.handleDefault_ok_state s u loanId lossAmount recoveredAmount s' u' h
    exact ⟨hpt, hL⟩

/-- USDC balances for the C2 run: lender 1 holds 100; the payment
controller (the authorized `repayLoan` caller) holds 50. -/
def c2U0 : Usdc := fun a => if a = 1 then 100 else if a = CONTROLLER_ADDR then 50 else 0

/-- The C2 run: deposit 100 (lender 1), fund a 50 loan, then repay 50. -/
def c2Run : Except String (LendingPool.State × Usdc) :=
  LendingPool.deposit LendingPool.initState c2U0 1 0 100 RiskTier.LOW >>= fun r =>
  LendingPool.fundLoan r.1 r.2 1 2 50 RiskTier.LOW >>= fun r =>
  LendingPool.repayLoan r.1 r.2 CONTROLLER_ADDR 1 50 RiskTier.LOW

/-- The same run stopped before `repayLoan`. -/
def c2RunPre : Except String (LendingPool.State × Usdc) :=
  LendingPool.deposit LendingPool.initState c2U0 1 0 100 RiskTier.LOW >>= fun r =>
  LendingPool.fundLoan r.1 r.2 1 2 50 RiskTier.LOW

/-- C2 counterexample to the claim as stated: after deposit(100) and
fundLoan(50) the conservation `Σ deposited = totalLiquidity` holds
(100 = 100), but the subsequent successful `repayLoan(50)` leaves the sum of
deposits at 100 while `totalLiquidity` becomes 150. -/
theorem C2_conservation_counterexample :
    c2RunPre.map (fun r =>
        (LendingPool.sumDeposits r.1 {1}, r.1.poolStats.totalLiquidity))
      = .ok (100, 100) ∧
    c2Run.map (fun r =>
        (LendingPool.sumDeposits r.1 {1}, r.1.poolStats.totalLiquidity))
      = .ok (100, 150) ∧
    (100 : Nat) ≠ 150 :=
  ⟨rfl, rfl, by decide⟩

/-- Pool state after the witness deposit for C2. -/
def c2S1 : LendingPool.State :=
  match LendingPool.deposit LendingPool.initState c2U0 1 0 100 RiskTier.LOW with
  | .ok r => r.1
  | .error _ => LendingPool.initState

/-- USDC balances after the witness deposit for C2. -/
def c2U1 : Usdc :=
  match LendingPool.deposit LendingPool.initState c2U0 1 0 100 RiskTier.LOW with
  | .ok r => r.2
  | .error _ => c2U0

/-- Witness for C2 (amended) on concrete inputs: the deposit conjunct applied
to the 100-unit deposit of lender 1 into the fresh pool. -/
theorem C2_conservation_per_operation_witness :
    (1 : Addr) ∈ ({1} : Finset Addr) ∧
    LendingPool.deposit LendingPool.initState c2U0 1 0 100 RiskTier.LOW
        = .ok (c2S1, c2U1) ∧
    LendingPool.sumDeposits LendingPool.initState {1}
        = LendingPool.initState.poolStats.totalLiquidity ∧
    LendingPool.sumDeposits c2S1 {1} = c2S1.poolStats.totalLiquidity :=
  ⟨by decide, rfl, by decide,
   C2_conservation_per_operation.1 LendingPool.initState c2U0 1 0 100
     RiskTier.LOW c2S1 c2U1 {1} (by decide) rfl (by decide)⟩

/-- Pool state for the C6 run: lender 1 has 100 deposited, reserve fund 10,
50 loaned out of 100 liquidity. -/
def c6S0 : LendingPool.State :=
  { LendingPool.initState with
      poolStats := { LendingPool.initState.poolStats with
          totalLiquidity := 100, totalLoaned := 50, totalLenders := 1 }
      lenderPositions := fun a =>
        if a = 1 then
          { deposited := 100, yieldEarned := 0, lastUpdateTime := 0
            riskTier := RiskTier.LOW, autoReinvest := false }
        else LendingPool.LenderPosition.zero
      tierLiquidity := fun t => if t = RiskTier.LOW then 100 else 0
      reserveFund := 10
      totalSupply := 100 }

/-- C6 (amended): a successful `handleDefault` debits the loss from the
reserve fund, zeroing it on a shortfall; no lender position changes
(`_distributeLoss` is an empty stub, so the shortfall is *not* socialized);
`recoveredAmount` is added to `totalLiquidity`; `totalDefaulted` grows and
`totalLoaned` shrinks by `lossAmount`. -/
theorem C6_handleDefault_effects (s : LendingPool.State) (u : Usdc)
    (loanId lossAmount recoveredAmount : Nat) (s' : LendingPool.State) (u' : Usdc)
    (h : LendingPool.handleDefault s u loanId lossAmount recoveredAmount
        = .ok (s', u')) :
    s'.reserveFund
      = (if lossAmount ≤ s.reserveFund then s.reserveFund - lossAmount else 0) ∧
    s'.lenderPositions = s.lenderPositions ∧
    s'.poolStats.totalLiquidity = s.poolStats.totalLiquidity + recoveredAmount ∧
    s'.poolStats.totalDefaulted = s.poolStats.totalDefaulted + lossAmount ∧
    s'.poolStats.totalLoaned = s.poolStats.totalLoaned - lossAmount := by
  obtain ⟨h1, h2, h3, h4, h5, h6⟩ :=
    LendingPool.handleDefault_ok_state s u loanId lossAmount recoveredAmount s' u' h
  exact ⟨h2, h1, h3, h4, h5⟩

/-- C6 counterexample to the claim as stated: `handleDefault(loanId=1,
loss=50, recovered=0)` on `c6S0` (reserve 10, lender 1 the sole depositor
with 100): the shortfall is 40 and lender 1's proportional share of it is 40,
so the claim requires their deposit to drop to 60 — but the code leaves it at
100 (while zeroing the reserve fund). -/
theorem C6_handleDefault_counterexample :
    (LendingPool.handleDefault c6S0 (fun _ => 0) 1 50 0).map (fun r =>
        ((r.1.lenderPositions 1).deposited, r.1.reserveFund))
      = .ok (100, 0) ∧
    (100 : Nat) ≠ 100 - (50 - 10) :=
  ⟨rfl, by decide⟩

/-- Pool state after the C6 witness `handleDefault`. -/
def c6S1 : LendingPool.State :=
  match LendingPool.handleDefault c6S0 (fun _ => 0) 1 50 0 with
  | .ok r => r.1
  | .error _ => c6S0

/-- Witness for C6 (amended) on the concrete shortfall run. -/
theorem C6_handleDefault_effects_witness :
    LendingPool.handleDefault c6S0 (fun _ => 0) 1 50 0 = .ok (c6S1, fun _ => 0) ∧
    (c6S1.reserveFund = (if 50 ≤ c6S0.reserveFund then c6S0.reserveFund - 50 else 0) ∧
     c6S1.lenderPositions = c6S0.lenderPositions ∧
     c6S1.poolStats.totalLiquidity = c6S0.poolStats.totalLiquidity + 0 ∧
     c6S1.poolStats.totalDefaulted = c6S0.poolStats.totalDefaulted + 50 ∧
     c6S1.poolStats.totalLoaned = c6S0.poolStats.totalLoaned - 50) :=
  ⟨rfl, C6_handleDefault_effects c6S0 (fun _ => 0) 1 50 0 c6S1 (fun _ => 0) rfl⟩

end BNPL

namespace BNPL.LendingPool

/-- `_updateLenderYield` on a lender with nothing deposited only stamps
`lastUpdateTime`. -/
theorem updateLenderYield_fresh (s : State) (l n : Nat)
    (hfresh : (s.lenderPositions l).deposited = 0) :
    updateLenderYield s l n
      = { s with lenderPositions := (Function.update s.lenderPositions l
            { s.lenderPositions l with lastUpdateTime := n }) } := by
  unfold updateLenderYield
  dsimp only
  rw [if_neg (by simp [hfresh])]

/-- `_updateLenderYield` with zero elapsed time accrues zero yield: it only
re-stamps `lastUpdateTime`. -/
theorem updateLenderYield_zero_elapsed (s : State) (l n : Nat)
    (hlu : (s.lenderPositions l).lastUpdateTime = n) :
    updateLenderYield s l n
      = { s with lenderPositions := (Function.update s.lenderPositions l
            { s.lenderPositions l with lastUpdateTime := n }) } := by
  unfold updateLenderYield
  dsimp only
  split
  · have hz : calculateYield (s.lenderPositions l).deposited
        (s.tierAPY (s.lenderPositions l).riskTier)
        (n - (s.lenderPositions l).lastUpdateTime) = 0 := by
      rw [hlu]
      simp [calculateYield]
    rw [hz]
    simp
  · rfl

end BNPL.LendingPool

namespace BNPL

/-- C3 (amended): for a lender with nothing currently deposited, depositing
`amount > 0` and immediately withdrawing the same `amount` (same
`block.timestamp`, no operations in between) succeeds and returns exactly
`amount` — the lender's USDC balance and deposited balance return to their
pre-deposit values — with the accrued yield unchanged, PROVIDED the pool's
post-deposit available liquidity covers the withdrawal:
`totalLoaned + amount ≤ (totalLiquidity + amount) * 9000 / 10000`.  Without
that proviso the claim is false: the withdrawal is capped by the 90%%
utilization buffer (see the counterexample in a fresh pool). -/
theorem C3_depositWithdraw_roundTrip (s : LendingPool.State) (u : Usdc)
    (sender now amount : Nat) (tier : RiskTier)
    (hfresh : (s.lenderPositions sender).deposited = 0)
    (hamt : 0 < amount)
    (hsender : sender ≠ POOL_ADDR)
    (hbal : amount ≤ u sender)
    (hav : s.poolStats.totalLoaned + amount
        ≤ (s.poolStats.totalLiquidity + amount) * 9000 / 10000) :
    (LendingPool.deposit s u sender now amount tier >>= fun r =>
        LendingPool.withdraw r.1 r.2 sender now amount).map (fun r =>
          (r.2 sender, (r.1.lenderPositions sender).deposited,
           (r.1.lenderPositions sender).yieldEarned))
      = .ok (u sender, 0, (s.lenderPositions sender).yieldEarned) := by
  unfold LendingPool.deposit
  rw [if_neg (by omega : ¬ amount = 0)]
  rw [LendingPool.updateLenderYield_fresh s sender now hfresh]
  unfold erc20Transfer
  rw [if_pos hbal]
  dsimp only
  simp only [Function.update_same]
  rw [if_pos hfresh]
  dsimp only
  simp only [bind, Except.bind]
  unfold LendingPool.withdraw
  dsimp only
  simp only [Function.update_same]
  rw [if_neg (by omega : ¬ (s.lenderPositions sender).deposited + amount < amount)]
  rw [LendingPool.updateLenderYield_zero_elapsed _ sender now
        (by simp [Function.update_same])]
  simp only [Function.update_same]
  unfold LendingPool.getAvailableLiquidity
  dsimp only
  try simp only [Function.update_same]
  try dsimp only
  simp only [LendingPool.MAX_UTILIZATION, LendingPool.BASIS_POINTS]
  rw [if_neg (by omega :
    ¬ (s.poolStats.totalLiquidity + amount) * 9000 / 10000 ≤ s.poolStats.totalLoaned)]
  rw [if_neg (by omega :
    ¬ (s.poolStats.totalLiquidity + amount) * 9000 / 10000 - s.poolStats.totalLoaned < amount)]
  repeat rw [Function.update_same]
  unfold checkedSub
  rw [if_pos (by omega : amount ≤ s.tierLiquidity tier + amount)]
  dsimp only
  rw [if_pos (by omega : (s.lenderPositions sender).deposited + amount - amount = 0)]
  dsimp only
  rw [if_pos (by omega : amount ≤ s.poolStats.totalLiquidity + amount)]
  dsimp only
  rw [if_pos (by omega : amount ≤ s.totalSupply + amount)]
  dsimp only
  unfold erc20Transfer
  repeat (first
    | rw [Function.update_same]
    | rw [Function.update_noteq hsender]
    | rw [Function.update_noteq (Ne.symm hsender)])
  rw [if_pos (by omega : amount ≤ u POOL_ADDR + amount)]
  dsimp only [Except.map]
  repeat (first
    | rw [Function.update_same]
    | rw [Function.update_noteq hsender]
    | rw [Function.update_noteq (Ne.symm hsender)])
  simp only [Except.ok.injEq, Prod.mk.injEq]
  exact ⟨by omega, by omega, trivial⟩

end BNPL

namespace BNPL

/-- Lender-held USDC for the C3 runs. -/
def c3U0 : Usdc := fun a => if a = 1 then 10 else 0

/-- C3 counterexample to the claim as stated: in a fresh pool, depositing 10
and immediately withdrawing 10 FAILS — the available liquidity after the
deposit is only `10 * 9000 / 10000 = 9`, so the withdrawal reverts with the
insufficient-pool-liquidity error instead of returning the 10. -/
theorem C3_depositWithdraw_counterexample :
    (LendingPool.deposit LendingPool.initState c3U0 1 0 10 RiskTier.LOW
        >>= fun r => LendingPool.withdraw r.1 r.2 1 0 10)
      = .error "LendingPool: Insufficient pool liquidity" := rfl

/-- Pool state for C3's witness: another lender (address 9) already has 100
deposited, so the pool can cover a 10-unit round trip by lender 1. -/
def c3S0 : LendingPool.State :=
  { LendingPool.initState with
      poolStats := { LendingPool.initState.poolStats with
          totalLiquidity := 100, totalLenders := 1 }
      lenderPositions := fun a =>
        if a = 9 then
          { deposited := 100, yieldEarned := 0, lastUpdateTime := 0
            riskTier := RiskTier.LOW, autoReinvest := false }
        else LendingPool.LenderPosition.zero
      tierLiquidity := fun t => if t = RiskTier.LOW then 100 else 0
      totalSupply := 100 }

/-- Witness for C3 (amended): with 100 pre-existing liquidity the 10-unit
round trip of lender 1 succeeds, returns exactly 10 and leaves the accrued
yield unchanged. -/
theorem C3_depositWithdraw_roundTrip_witness :
    (c3S0.lenderPositions 1).deposited = 0 ∧
    c3S0.poolStats.totalLoaned + 10
        ≤ (c3S0.poolStats.totalLiquidity + 10) * 9000 / 10000 ∧
    (LendingPool.deposit c3S0 c3U0 1 0 10 RiskTier.LOW >>= fun r =>
        LendingPool.withdraw r.1 r.2 1 0 10).map (fun r =>
          (r.2 1, (r.1.lenderPositions 1).deposited,
           (r.1.lenderPositions 1).yieldEarned))
      = .ok (c3U0 1, 0, (c3S0.lenderPositions 1).yieldEarned) :=
  ⟨by decide, by decide,
   C3_depositWithdraw_roundTrip c3S0 c3U0 1 0 10 RiskTier.LOW (by decide)
     (by decide) (by decide) (by decide) (by decide)⟩

end BNPL

namespace BNPL

/-- A successful ERC20 transfer implies the source had enough balance. -/
theorem erc20Transfer_ok_le (u : Usdc) (src dst amt : Nat) (u2 : Usdc)
    (h : erc20Transfer u src dst amt = .ok u2) : amt ≤ u src := by
  unfold erc20Transfer at h
  split at h
  · assumption
  · cases h

/-- A successful ERC20 transfer debits the source (when distinct from the
destination). -/
theorem erc20Transfer_ok_src (u : Usdc) (src dst amt : Nat) (u2 : Usdc)
    (h : erc20Transfer u src dst amt = .ok u2) (hne : src ≠ dst) :
    u2 src = u src - amt := by
  unfold erc20Transfer at h
  split at h
  · injection h with h1
    subst h1
    rw [Function.update_noteq hne, Function.update_same]
  · cases h

/-- An ERC20 transfer leaves third-party balances unchanged. -/
theorem erc20Transfer_ok_other (u : Usdc) (src dst amt : Nat) (u2 : Usdc)
    (h : erc20Transfer u src dst amt = .ok u2) (a : Addr)
    (ha : a ≠ src) (hb : a ≠ dst) : u2 a = u a := by
  unfold erc20Transfer at h
  split at h
  · injection h with h1
    subst h1
    rw [Function.update_noteq hb, Function.update_noteq ha]
  · cases h

/-- `repayLoan` moves USDC only between its caller and the pool. -/
theorem repayLoan_ok_usdc (s : LendingPool.State) (u : Usdc) (caller : Addr)
    (loanId amount : Nat) (tier : RiskTier) (s' : LendingPool.State) (u' : Usdc)
    (h : LendingPool.repayLoan s u caller loanId amount tier = .ok (s', u'))
    (a : Addr) (ha : a ≠ caller) (hb : a ≠ POOL_ADDR) : u' a = u a := by
  unfold LendingPool.repayLoan at h
  split at h
  · cases h
  · cases htr : erc20Transfer u caller POOL_ADDR amount with
    | error e => rw [htr] at h; dsimp only at h; cases h
    | ok u2 =>
      rw [htr] at h; dsimp only at h
      cases hcs : checkedSub s.poolStats.totalLoaned amount with
      | error e => rw [hcs] at h; dsimp only at h; cases h
      | ok tl =>
        rw [hcs] at h; dsimp only at h
        injection h with h1
        injection h1 with hs hu
        subst hu
        exact erc20Transfer_ok_other u caller POOL_ADDR amount u2 htr a ha hb

end BNPL

namespace BNPL

/-- A successful `checkedSub` yields the exact difference. -/
theorem checkedSub_ok (x y r : Nat) (h : checkedSub x y = .ok r) :
    r = x - y ∧ y ≤ x := by
  unfold checkedSub at h
  split at h
  · injection h with hh
    exact ⟨hh.symm, by assumption⟩
  · cases h

/-- The late fee `makePayment` charges at time `now` on payment
`paymentId`: `amount * lateFeeRateBps / 10000` when past the 2-day grace
period, else 0. -/
def mpFee (w : World) (paymentId now : Nat) : Nat :=
  if (w.ctrl.payments paymentId).dueDate
      + PaymentController.LATE_PAYMENT_GRACE_PERIOD < now then
    PaymentController.calculateLateFee (w.ctrl.payments paymentId).amount
      (w.ctrl.loans (w.ctrl.payments paymentId).loanId).terms.lateFeeRate
  else 0

/-- `_completeLoan` changes no payment, no USDC balance, and none of the
loan's accounting fields (only its status, besides collateral/credit
effects). -/
theorem completeLoan_fields (w : World) (loanId now : Nat) (w' : World)
    (h : World.completeLoan w loanId now = .ok w') :
    w'.ctrl.payments = w.ctrl.payments ∧
    (w'.ctrl.loans loanId).paidAmount = (w.ctrl.loans loanId).paidAmount ∧
    (w'.ctrl.loans loanId).remainingAmount
        = (w.ctrl.loans loanId).remainingAmount ∧
    (w'.ctrl.loans loanId).totalAmount = (w.ctrl.loans loanId).totalAmount ∧
    w'.usdc = w.usdc := by
  unfold World.completeLoan at h
  dsimp only at h
  split at h
  · cases h
  · split at h
    · cases h
    · injection h with h1
      subst h1
      refine ⟨rfl, ?_, ?_, ?_, rfl⟩ <;> simp [Function.update_same]

/-- Characterization of a successful `makePayment`: the guards that must
have held, the updated payment record, the loan's accounting update (the
borrower is debited `amount + lateFee` and `paidAmount` grows by that same
debited total, while `remainingAmount` shrinks only by `amount`), and the
borrower's USDC debit. -/
theorem makePayment_ok_spec (w : World) (sender paymentId now : Nat) (w' : World)
    (h : World.makePayment w sender paymentId now = .ok w') :
    (w.ctrl.payments paymentId).status = PaymentStatus.PENDING ∧
    (w.ctrl.loans (w.ctrl.payments paymentId).loanId).status = LoanStatus.ACTIVE ∧
    (w.ctrl.loans (w.ctrl.payments paymentId).loanId).borrower = sender ∧
    (w.ctrl.payments paymentId).amount
        ≤ (w.ctrl.loans (w.ctrl.payments paymentId).loanId).remainingAmount ∧
    w'.ctrl.payments paymentId
        = { w.ctrl.payments paymentId with
              paidDate := now
              lateFee := mpFee w paymentId now
              status :=
                if (w.ctrl.payments paymentId).dueDate
                    + PaymentController.LATE_PAYMENT_GRACE_PERIOD < now then
                  PaymentStatus.LATE
                else PaymentStatus.PAID } ∧
    (w'.ctrl.loans (w.ctrl.payments paymentId).loanId).paidAmount
        = (w.ctrl.loans (w.ctrl.payments paymentId).loanId).paidAmount
          + ((w.ctrl.payments paymentId).amount + mpFee w paymentId now) ∧
    (w'.ctrl.loans (w.ctrl.payments paymentId).loanId).remainingAmount
        = (w.ctrl.loans (w.ctrl.payments paymentId).loanId).remainingAmount
          - (w.ctrl.payments paymentId).amount ∧
    (w'.ctrl.loans (w.ctrl.payments paymentId).loanId).totalAmount
        = (w.ctrl.loans (w.ctrl.payments paymentId).loanId).totalAmount ∧
    (w.ctrl.payments paymentId).amount + mpFee w paymentId now ≤ w.usdc sender ∧
    (sender ≠ CONTROLLER_ADDR → sender ≠ POOL_ADDR →
      w'.usdc sender
        = w.usdc sender
          - ((w.ctrl.payments paymentId).amount + mpFee w paymentId now)) := by
  unfold World.makePayment at h
  dsimp only at h
  split at h
  · cases h
  · split at h
    · cases h
    · split at h
      · cases h
      · rename_i hpend hbor hact
        have hPEND : (w.ctrl.payments paymentId).status = PaymentStatus.PENDING :=
          not_not.mp hpend
        have hACT : (w.ctrl.loans (w.ctrl.payments paymentId).loanId).status
            = LoanStatus.ACTIVE := not_not.mp hact
        have hBOR : (w.ctrl.loans (w.ctrl.payments paymentId).loanId).borrower
            = sender := not_not.mp hbor
        by_cases hlate : (w.ctrl.payments paymentId).dueDate
            + PaymentController.LATE_PAYMENT_GRACE_PERIOD < now
        · simp only [if_pos hlate] at h
          split at h
          · cases h
          · rename_i u1 htr1
            split at h
            · cases h
            · rename_i rem hrem
              obtain ⟨hrem_eq, hrem_le⟩ := checkedSub_ok _ _ _ hrem
              split at h
              · cases h
              · rename_i u2 htr2
                by_cases hfee : 0 < PaymentController.calculateLateFee
                    (w.ctrl.payments paymentId).amount
                    (w.ctrl.loans (w.ctrl.payments paymentId).loanId).terms.lateFeeRate
                · simp only [if_pos hfee] at h
                  split at h
                  · cases h
                  · rename_i u3 htr3
                    split at h
                    · cases h
                    · rename_i pool1 u4 hrp
                      try dsimp only at h
                      split at h
                      · cases h
                      · rename_i risk1 hrec
                        refine ⟨hPEND, hACT, hBOR, hrem_le, ?_⟩
                        by_cases hdone : rem = 0
                        · simp only [if_pos hdone] at h
                          obtain ⟨e1, e2, e3, e4, e5⟩ :=
                            completeLoan_fields _ _ _ _ h
                          rw [e1, e2, e3, e4, e5]
                          simp only [mpFee, if_pos hlate]
                          unfold PaymentController.updateNextPaymentDue
                          try dsimp only
                          repeat rw [Function.update_same]
                          try dsimp only
                          refine ⟨rfl, rfl, ?_, rfl,
                            erc20Transfer_ok_le _ _ _ _ _ htr1, ?_⟩
                          · omega
                          · intro hs1 hs2
                            rw [repayLoan_ok_usdc _ _ _ _ _ _ _ _ hrp sender hs1 hs2]
                            rw [erc20Transfer_ok_other _ _ _ _ _ htr3 sender hs1 hs2]
                            rw [erc20Transfer_ok_other _ _ _ _ _ htr2 sender hs1 hs2]
                            rw [erc20Transfer_ok_src _ _ _ _ _ htr1 hs1]
                        · simp only [if_neg hdone] at h
                          injection h with h1
                          subst h1
                          simp only [mpFee, if_pos hlate]
                          unfold PaymentController.updateNextPaymentDue
                          try dsimp only
                          repeat rw [Function.update_same]
                          try dsimp only
                          refine ⟨rfl, rfl, ?_, rfl,
                            erc20Transfer_ok_le _ _ _ _ _ htr1, ?_⟩
                          · omega
                          · intro hs1 hs2
                            rw [repayLoan_ok_usdc _ _ _ _ _ _ _ _ hrp sender hs1 hs2]
                            rw [erc20Transfer_ok_other _ _ _ _ _ htr3 sender hs1 hs2]
                            rw [erc20Transfer_ok_other _ _ _ _ _ htr2 sender hs1 hs2]
                            rw [erc20Transfer_ok_src _ _ _ _ _ htr1 hs1]
                · simp only [if_neg hfee] at h
                  try dsimp only at h
                  split at h
                  · cases h
                  · rename_i pool1 u4 hrp
                    try dsimp only at h
                    split at h
                    · cases h
                    · rename_i risk1 hrec
                      refine ⟨hPEND, hACT, hBOR, hrem_le, ?_⟩
                      by_cases hdone : rem = 0
                      · simp only [if_pos hdone] at h
                        obtain ⟨e1, e2, e3, e4, e5⟩ :=
                          completeLoan_fields _ _ _ _ h
                        rw [e1, e2, e3, e4, e5]
                        simp only [mpFee, if_pos hlate]
                        unfold PaymentController.updateNextPaymentDue
                        try dsimp only
                        repeat rw [Function.update_same]
                        try dsimp only
                        refine ⟨rfl, rfl, ?_, rfl,
                          erc20Transfer_ok_le _ _ _ _ _ htr1, ?_⟩
                        · omega
                        · intro hs1 hs2
                          rw [repayLoan_ok_usdc _ _ _ _ _ _ _ _ hrp sender hs1 hs2]
                          rw [erc20Transfer_ok_other _ _ _ _ _ htr2 sender hs1 hs2]
                          rw [erc20Transfer_ok_src _ _ _ _ _ htr1 hs1]
                      · simp only [if_neg hdone] at h
                        injection h with h1
                        subst h1
                        simp only [mpFee, if_pos hlate]
                        unfold PaymentController.updateNextPaymentDue
                        try dsimp only
                        repeat rw [Function.update_same]
                        try dsimp only
                        refine ⟨rfl, rfl, ?_, rfl,
                          erc20Transfer_ok_le _ _ _ _ _ htr1, ?_⟩
                        · omega
                        · intro hs1 hs2
                          rw [repayLoan_ok_usdc _ _ _ _ _ _ _ _ hrp sender hs1 hs2]
                          rw [erc20Transfer_ok_other _ _ _ _ _ htr2 sender hs1 hs2]
                          rw [erc20Transfer_ok_src _ _ _ _ _ htr1 hs1]
        · simp only [if_neg hlate] at h
          split at h
          · cases h
          · rename_i u1 htr1
            split at h
            · cases h
            · rename_i rem hrem
              obtain ⟨hrem_eq, hrem_le⟩ := checkedSub_ok _ _ _ hrem
              split at h
              · cases h
              · rename_i u2 htr2
                rw [if_neg (lt_irrefl 0)] at h
                try dsimp only at h
                split at h
                · cases h
                · rename_i pool1 u4 hrp
                  try dsimp only at h
                  split at h
                  · cases h
                  · rename_i risk1 hrec
                    refine ⟨hPEND, hACT, hBOR, hrem_le, ?_⟩
                    by_cases hdone : rem = 0
                    · simp only [if_pos hdone] at h
                      obtain ⟨e1, e2, e3, e4, e5⟩ :=
                        completeLoan_fields _ _ _ _ h
                      rw [e1, e2, e3, e4, e5]
                      simp only [mpFee, if_neg hlate]
                      unfold PaymentController.updateNextPaymentDue
                      try dsimp only
                      repeat rw [Function.update_same]
                      try dsimp only
                      refine ⟨rfl, rfl, ?_, rfl,
                        erc20Transfer_ok_le _ _ _ _ _ htr1, ?_⟩
                      · omega
                      · intro hs1 hs2
                        rw [repayLoan_ok_usdc _ _ _ _ _ _ _ _ hrp sender hs1 hs2]
                        rw [erc20Transfer_ok_other _ _ _ _ _ htr2 sender hs1 hs2]
                        rw [erc20Transfer_ok_src _ _ _ _ _ htr1 hs1]
                    · simp only [if_neg hdone] at h
                      injection h with h1
                      subst h1
                      simp only [mpFee, if_neg hlate]
                      unfold PaymentController.updateNextPaymentDue
                      try dsimp only
                      repeat rw [Function.update_same]
                      try dsimp only
                      refine ⟨rfl, rfl, ?_, rfl,
                        erc20Transfer_ok_le _ _ _ _ _ htr1, ?_⟩
                      · omega
                      · intro hs1 hs2
                        rw [repayLoan_ok_usdc _ _ _ _ _ _ _ _ hrp sender hs1 hs2]
                        rw [erc20Transfer_ok_other _ _ _ _ _ htr2 sender hs1 hs2]
                        rw [erc20Transfer_ok_src _ _ _ _ _ htr1 hs1]

/-- C1 (amended): a successful `makePayment` adds the full debited total
(installment + late fee) to `paidAmount` but subtracts only the installment
from `remainingAmount`, so `paidAmount + remainingAmount` grows by exactly
the late fee charged (`mpFee`, zero when on time) and `totalAmountDue` is
unchanged.  Consequently `paidAmount + remainingAmount == totalAmountDue`
is preserved by on-time payments and broken by any late payment whose fee
is nonzero. -/
theorem C1_makePayment_accounting (w : World) (sender paymentId now : Nat)
    (w' : World) (h : World.makePayment w sender paymentId now = .ok w') :
    (w'.ctrl.loans (w.ctrl.payments paymentId).loanId).paidAmount
        + (w'.ctrl.loans (w.ctrl.payments paymentId).loanId).remainingAmount
      = (w.ctrl.loans (w.ctrl.payments paymentId).loanId).paidAmount
        + (w.ctrl.loans (w.ctrl.payments paymentId).loanId).remainingAmount
        + mpFee w paymentId now ∧
    (w'.ctrl.loans (w.ctrl.payments paymentId).loanId).totalAmount
      = (w.ctrl.loans (w.ctrl.payments paymentId).loanId).totalAmount ∧
    (mpFee w paymentId now = 0 →
     (w.ctrl.loans (w.ctrl.payments paymentId).loanId).paidAmount
         + (w.ctrl.loans (w.ctrl.payments paymentId).loanId).remainingAmount
       = (w.ctrl.loans (w.ctrl.payments paymentId).loanId).totalAmount →
     (w'.ctrl.loans (w.ctrl.payments paymentId).loanId).paidAmount
         + (w'.ctrl.loans (w.ctrl.payments paymentId).loanId).remainingAmount
       = (w'.ctrl.loans (w.ctrl.payments paymentId).loanId).totalAmount) := by
  obtain ⟨_, _, _, hle, _, hpaid, hrem, htot, _, _⟩ :=
    makePayment_ok_spec w sender paymentId now w' h
  refine ⟨by omega, htot, ?_⟩
  intro hfee hinv
  omega

/-- C8: a successful `makePayment` called after `dueDate + 2 days` marks the
payment LATE, charges `lateFee = amount * lateFeeRateBps / 10000` (integer
truncation) and debits the borrower `amount + lateFee`; called within the
grace period it marks the payment PAID with no fee and debits exactly
`amount`. -/
theorem C8_makePayment_lateFee (w : World) (sender paymentId now : Nat)
    (w' : World) (h : World.makePayment w sender paymentId now = .ok w') :
    ((w.ctrl.payments paymentId).dueDate + 2 * 86400 < now →
      (w'.ctrl.payments paymentId).status = PaymentStatus.LATE ∧
      (w'.ctrl.payments paymentId).lateFee
        = (w.ctrl.payments paymentId).amount
          * (w.ctrl.loans (w.ctrl.payments paymentId).loanId).terms.lateFeeRate
          / 10000 ∧
      (sender ≠ CONTROLLER_ADDR → sender ≠ POOL_ADDR →
        w'.usdc sender
          = w.usdc sender
            - ((w.ctrl.payments paymentId).amount
               + (w.ctrl.payments paymentId).amount
                 * (w.ctrl.loans (w.ctrl.payments paymentId).loanId).terms.lateFeeRate
                 / 10000))) ∧
    (now ≤ (w.ctrl.payments paymentId).dueDate + 2 * 86400 →
      (w'.ctrl.payments paymentId).status = PaymentStatus.PAID ∧
      (w'.ctrl.payments paymentId).lateFee = 0 ∧
      (sender ≠ CONTROLLER_ADDR → sender ≠ POOL_ADDR →
        w'.usdc sender = w.usdc sender - (w.ctrl.payments paymentId).amount)) := by
  obtain ⟨_, _, _, _, hpay, _, _, _, _, husdc⟩ :=
    makePayment_ok_spec w sender paymentId now w' h
  constructor
  · intro hl
    have hl' : (w.ctrl.payments paymentId).dueDate
        + PaymentController.LATE_PAYMENT_GRACE_PERIOD < now := by
      simpa [PaymentController.LATE_PAYMENT_GRACE_PERIOD] using hl
    refine ⟨?_, ?_, ?_⟩
    · rw [hpay]
      dsimp only
      rw [if_pos hl']
    · rw [hpay]
      dsimp only
      simp [mpFee, if_pos hl', PaymentController.calculateLateFee,
        PaymentController.BASIS_POINTS]
    · intro hs1 hs2
      rw [husdc hs1 hs2]
      simp [mpFee, if_pos hl', PaymentController.calculateLateFee,
        PaymentController.BASIS_POINTS]
  · intro hl
    have hl' : ¬ ((w.ctrl.payments paymentId).dueDate
        + PaymentController.LATE_PAYMENT_GRACE_PERIOD < now) := by
      simp only [PaymentController.LATE_PAYMENT_GRACE_PERIOD]
      omega
    refine ⟨?_, ?_, ?_⟩
    · rw [hpay]
      dsimp only
      rw [if_neg hl']
    · rw [hpay]
      dsimp only
      simp [mpFee, if_neg hl']
    · intro hs1 hs2
      rw [husdc hs1 hs2]
      simp [mpFee, if_neg hl']

end BNPL

namespace BNPL

/-- Concrete world for the C1/C8 runs: loan 1 is ACTIVE with
`totalAmountDue = 1000` (4 × 250 bi-weekly, 0% interest, 2.5% late fee);
payment 1 of 250 is PENDING, due at day 14; the pool holds 2000 liquidity
with 1000 loaned; the borrower (address 1) holds 10000 USDC and the
controller 1000. -/
def c1W0 : World :=
  { pool :=
      { LendingPool.initState with
          poolStats := { LendingPool.initState.poolStats with
              totalLiquidity := 2000, totalLoaned := 1000, totalLenders := 1 }
          lenderPositions := fun a =>
            if a = 9 then
              { deposited := 2000, yieldEarned := 0, lastUpdateTime := 0
                riskTier := RiskTier.LOW, autoReinvest := false }
            else LendingPool.LenderPosition.zero
          tierLiquidity := fun t => if t = RiskTier.LOW then 2000 else 0
          totalSupply := 2000 }
    ctrl :=
      { nextLoanId := 2, nextPaymentId := 5
        loans := fun i =>
          if i = 1 then
            { id := 1, borrower := 1, merchant := 2, principal := 1000
              totalAmount := 1000, collateralAmount := 50, collateralToken := 5
              terms := { installments := 4, intervalDays := 14
                         interestRate := 0, lateFeeRate := 250 }
              status := LoanStatus.ACTIVE, createdAt := 0
              nextPaymentDue := 14 * 86400, paidAmount := 0
              remainingAmount := 1000, riskTier := RiskTier.MEDIUM }
          else PaymentController.Loan.zero
        payments := fun i =>
          if i = 1 then
            { id := 1, loanId := 1, amount := 250, dueDate := 14 * 86400
              paidDate := 0, status := PaymentStatus.PENDING, lateFee := 0 }
          else PaymentController.Payment.zero
        loanPayments := fun i => if i = 1 then [1] else []
        merchants := fun _ =>
          { name := "m", wallet := 2, totalVolume := 0, totalOrders := 0
            isActive := true, settlementDelay := 0 } }
    risk := RiskEngine.initState
    coll :=
      { collateralPositions := fun _ => CollateralManager.CollateralPosition.zero
        tokenConfigs := fun _ =>
          { isSupported := false, liquidationThreshold := 0
            liquidationBonus := 0, maxLoanToValue := 0, priceFeed := 0 }
        tokenPrices := fun _ => 0
        liquidationDelay := 48 * 3600
        decimals := fun _ => 0 }
    usdc := fun a => if a = 1 then 10000 else if a = CONTROLLER_ADDR then 1000 else 0
    tokenBal := fun _ _ => 0 }

/-- C1 counterexample to the claim as stated: the 250 payment made 3 days
past its due date (late fee 6) succeeds, after which
`paidAmount + remainingAmount = 256 + 750 = 1006 ≠ 1000 = totalAmountDue` —
the debited late fee is accumulated into `paidAmount`. -/
theorem C1_makePayment_counterexample :
    (World.makePayment c1W0 1 1 1468800).map (fun w =>
        ((w.ctrl.loans 1).paidAmount, (w.ctrl.loans 1).remainingAmount,
         (w.ctrl.loans 1).totalAmount))
      = .ok (256, 750, 1000) ∧
    256 + 750 ≠ 1000 :=
  ⟨rfl, by decide⟩

/-- World after the on-time C1 witness payment. -/
def c1W1 : World :=
  match World.makePayment c1W0 1 1 1209600 with
  | .ok w => w
  | .error _ => c1W0

/-- Witness for C1 (amended): the same payment made exactly on its due date
charges no fee and preserves `paidAmount + remainingAmount = totalAmountDue`. -/
theorem C1_makePayment_accounting_witness :
    World.makePayment c1W0 1 1 1209600 = .ok c1W1 ∧
    mpFee c1W0 1 1209600 = 0 ∧
    (c1W1.ctrl.loans 1).paidAmount + (c1W1.ctrl.loans 1).remainingAmount
      = (c1W0.ctrl.loans 1).paidAmount + (c1W0.ctrl.loans 1).remainingAmount
        + mpFee c1W0 1 1209600 ∧
    (c1W1.ctrl.loans 1).paidAmount + (c1W1.ctrl.loans 1).remainingAmount
      = (c1W1.ctrl.loans 1).totalAmount :=
  ⟨rfl, by decide,
   (C1_makePayment_accounting c1W0 1 1 1209600 c1W1 rfl).1,
   (C1_makePayment_accounting c1W0 1 1 1209600 c1W1 rfl).2.2
     (by decide) (by decide)⟩

/-- World after the late C8 witness payment. -/
def c8W1 : World :=
  match World.makePayment c1W0 1 1 1468800 with
  | .ok w => w
  | .error _ => c1W0

/-- Witness for C8 on the spec's Scenario C: the 250 payment with
`lateFeeRateBps = 250` made 3 days after its due date (grace period 2 days)
gets status LATE, `lateFee = 6` and a total debit of 256. -/
theorem C8_makePayment_lateFee_witness :
    World.makePayment c1W0 1 1 1468800 = .ok c8W1 ∧
    (c1W0.ctrl.payments 1).dueDate + 2 * 86400 < 1468800 ∧
    (c8W1.ctrl.payments 1).status = PaymentStatus.LATE ∧
    (c8W1.ctrl.payments 1).lateFee
      = (c1W0.ctrl.payments 1).amount
        * (c1W0.ctrl.loans (c1W0.ctrl.payments 1).loanId).terms.lateFeeRate
        / 10000 ∧
    (c8W1.ctrl.payments 1).lateFee = 6 ∧
    c8W1.usdc 1
      = c1W0.usdc 1
        - ((c1W0.ctrl.payments 1).amount
           + (c1W0.ctrl.payments 1).amount
             * (c1W0.ctrl.loans (c1W0.ctrl.payments 1).loanId).terms.lateFeeRate
             / 10000) ∧
    c8W1.usdc 1 = 10000 - 256 :=
  ⟨rfl, by decide,
   ((C8_makePayment_lateFee c1W0 1 1 1468800 c8W1 rfl).1 (by decide)).1,
   ((C8_makePayment_lateFee c1W0 1 1 1468800 c8W1 rfl).1 (by decide)).2.1,
   by decide,
   ((C8_makePayment_lateFee c1W0 1 1 1468800 c8W1 rfl).1 (by decide)).2.2
     (by decide) (by decide),
   by decide⟩

end BNPL
